import Mathlib

/-
Verification development for the mimiclaw on-device assistant runtime.

The definitions below are a shallow embedding of the C sources under
src/main (message bus, deterministic control plane, agent turn loop).
C strings are modelled as `List Char` (UTF-8 codepoints).  Since UTF-8 is
self-synchronizing, a byte-level `strstr` match of a well-formed needle
inside a well-formed haystack always aligns on codepoint boundaries, so
codepoint-level scanning is equivalent to the C byte-level scanning for
the keyword sets used by the sources.

Machine integers: the sources use `int`/`uint32_t`/`int64_t`; all values
manipulated by the claims are tiny, so `Nat`/`Int` are used, with explicit
`% 2^32` in the FNV-1a hash and `% 256` at the single `uint8_t` cast.
-/

namespace Mimiclaw

/-- Text is a list of Unicode codepoints (UTF-8 decoded C string). -/
abbrev Text := List Char

/-! ## Text scanning helpers (C `strstr`, `strncmp`, `strstr`-based predicates) -/

/-- Index of the first occurrence of `needle` in the remaining haystack,
starting at index `i`; mirrors C `strstr`. -/
def strStrAux (needle : Text) : Text → Nat → Option Nat
  | [], i => if needle.isPrefixOf ([] : Text) then some i else none
  | c :: t, i =>
    if needle.isPrefixOf (c :: t) then some i else strStrAux needle t (i + 1)

/-- First occurrence of `needle` in `hay` (C `strstr`), as an index. -/
def strStr (hay needle : Text) : Option Nat := strStrAux needle hay 0

/-- C `strstr(hay, needle) != NULL`. -/
def containsSub (hay needle : Text) : Bool := (strStr hay needle).isSome

/-- C helper `contains_any` from control_plane.c. -/
def containsAny (text : Text) (keywords : List Text) : Bool :=
  keywords.any fun k => !k.isEmpty && containsSub text k

/-- `clamp_int` from control_plane.c. -/
def clampInt (v lo hi : Int) : Int :=
  if v < lo then lo else if v > hi then hi else v

/-! ## Message type (message_bus.h `mimi_msg_t`)

The C struct carries fixed-size char arrays; the size limits do not bind on
any input used by the claims and are noted where a copy truncates.
`metaRequestId` models the `request_id` string field extracted by
`cJSON_Parse` from `meta_json` in `build_request_id` (the JSON library is
an external collaborator); it is `none` whenever `metaJson` is empty. -/

structure MimiMsg where
  channel : Text := []
  chatId : Text := []
  mediaType : Text := []
  fileId : Text := []
  filePath : Text := []
  content : Text := []
  metaJson : Text := []
  metaRequestId : Option Text := none
deriving DecidableEq, Inhabited

/-! ## Message bus (message_bus.c) -/

/-- Configured depth and retry policy (mimi_config.h). -/
def MIMI_BUS_QUEUE_LEN : Nat := 8

def MIMI_OUTBOUND_FINAL_WAIT_MS : Nat := 1200

def MIMI_OUTBOUND_QUEUE_RETRY_MAX : Nat := 3

def MIMI_OUTBOUND_QUEUE_RETRY_BASE_MS : Nat := 200

/-- `outbound_is_status` from message_bus.c: content starts with the 4 bytes
"mimi" and contains the ASCII ellipsis "...". -/
def outboundIsStatus (content : Text) : Bool :=
  "mimi".data.isPrefixOf content && containsSub content "...".data

/-- Loop body of `outbound_retry_delay_ms`: double `delay` up to `n` times,
clamping at 5000 and stopping there. -/
def outboundRetryDelayClamp : Nat → Nat → Nat
  | 0, delay => delay
  | n + 1, delay =>
    let d := delay * 2
    if d > 5000 then 5000 else outboundRetryDelayClamp n d

/-- `outbound_retry_delay_ms(attempt)` from message_bus.c. -/
def outboundRetryDelayMs (attempt : Nat) : Nat :=
  outboundRetryDelayClamp (attempt - 1) MIMI_OUTBOUND_QUEUE_RETRY_BASE_MS

/-- Observable scheduling events of `message_bus_push_outbound`: one enqueue
attempt with its maximum wait, or an inter-attempt backoff sleep. -/
inductive BusEvent
  | attempt (waitMs : Nat)
  | sleep (delayMs : Nat)
deriving DecidableEq

/-- Result of a push: `ok` (ESP_OK) or the distinguishable queue-full error
(ESP_ERR_NO_MEM). -/
inductive PushResult
  | ok
  | queueFull
deriving DecidableEq

/-- Retry loop of `message_bus_push_outbound`.  `accepts n` tells whether the
queue accepts the n-th enqueue attempt (`xQueueSend` success). `remaining`
counts the attempts still allowed (including the current one). -/
def pushOutboundGo (accepts : Nat → Bool) (waitMs : Nat) :
    Nat → Nat → List BusEvent → PushResult × List BusEvent
  | 0, _, acc => (PushResult.queueFull, acc)
  | remaining + 1, attempt, acc =>
    let acc := acc ++ [BusEvent.attempt waitMs]
    if accepts attempt then (PushResult.ok, acc)
    else if remaining > 0 then
      pushOutboundGo accepts waitMs remaining (attempt + 1)
        (acc ++ [BusEvent.sleep (outboundRetryDelayMs attempt)])
    else (PushResult.queueFull, acc)

/-- `message_bus_push_outbound` from message_bus.c, returning the result and
the trace of attempts/sleeps it performs. -/
def messageBusPushOutbound (accepts : Nat → Bool) (msg : MimiMsg) :
    PushResult × List BusEvent :=
  let isStatus := outboundIsStatus msg.content
  let maxAttempts := if isStatus then 1 else MIMI_OUTBOUND_QUEUE_RETRY_MAX
  let waitMs := if isStatus then 0 else MIMI_OUTBOUND_FINAL_WAIT_MS
  pushOutboundGo accepts waitMs maxAttempts 1 []

/-! ## Numeric parsing (control_plane.c)

`decode_utf8_cp` decodes one UTF-8 codepoint; in the codepoint model it is
simply taking the head `Char`.  `int` accumulation cannot overflow on any
input relevant to the claims, so `Nat` is used. -/

/-- C `isdigit` on ASCII. -/
def isAsciiDigit (c : Char) : Bool := 48 ≤ c.toNat && c.toNat ≤ 57

/-- `zh_digit_value`: Chinese digit codepoints (−1 becomes `none`). -/
def zhDigitValue (cp : Nat) : Option Nat :=
  if cp = 0x96F6 || cp = 0x3007 then some 0
  else if cp = 0x4E00 then some 1
  else if cp = 0x4E8C || cp = 0x4E24 then some 2
  else if cp = 0x4E09 then some 3
  else if cp = 0x56DB then some 4
  else if cp = 0x4E94 then some 5
  else if cp = 0x516D then some 6
  else if cp = 0x4E03 then some 7
  else if cp = 0x516B then some 8
  else if cp = 0x4E5D then some 9
  else none

/-- `zh_unit_value`: 十 = 10, 百 = 100, otherwise 0. -/
def zhUnitValue (cp : Nat) : Nat :=
  if cp = 0x5341 then 10 else if cp = 0x767E then 100 else 0

/-- Count of leading `' '`/`'\t'` characters (the skip loop of
`parse_int_ascii`). -/
def asciiSpaceCount : Text → Nat
  | [] => 0
  | c :: t => if c = ' ' || c = '\t' then asciiSpaceCount t + 1 else 0

/-- Digit-accumulation loop of `parse_int_ascii`; returns the value and the
number of digits consumed. -/
def parseDigits : Text → Nat → Nat × Nat
  | [], v => (v, 0)
  | c :: t, v =>
    if isAsciiDigit c then
      let r := parseDigits t (v * 10 + (c.toNat - 48))
      (r.1, r.2 + 1)
    else (v, 0)

/-- `parse_int_ascii`: skip spaces/tabs, then ASCII digits; `consumed`
includes the skipped spaces. -/
def parseIntAscii (s : Text) : Option (Nat × Nat) :=
  let k := asciiSpaceCount s
  let r := parseDigits (s.drop k) 0
  if r.2 = 0 then none else some (r.1, k + r.2)

/-- Loop of `parse_int_zh` over codepoints, carrying
(result, current, seen, consumed). -/
def parseIntZhAux : Text → Nat → Nat → Bool → Nat → Nat × Nat × Bool
  | [], result, current, seen, consumed => (result + current, consumed, seen)
  | c :: t, result, current, seen, consumed =>
    match zhDigitValue c.toNat with
    | some d => parseIntZhAux t result d true (consumed + 1)
    | none =>
      let u := zhUnitValue c.toNat
      if u > 0 then
        let cur := if !seen || current = 0 then 1 else current
        parseIntZhAux t (result + cur * u) 0 true (consumed + 1)
      else (result + current, consumed, seen)

/-- `parse_int_zh`. -/
def parseIntZh (s : Text) : Option (Nat × Nat) :=
  let r := parseIntZhAux s 0 0 false 0
  if r.2.2 then some (r.1, r.2.1) else none

/-- `parse_number_token`: ASCII integer first, else Chinese numeral. -/
def parseNumberToken (s : Text) : Option (Nat × Nat) :=
  match parseIntAscii s with
  | some r => some r
  | none => parseIntZh s

/-- Scanning loop of `parse_last_number_before`: try a number token at every
position `i < pos`; accept it only if it ends at or before `pos`.  The C
loop advances the cursor past an accepted token (`p += n - 1; p++`). -/
def parseLastNumberBeforeGo : Text → Nat → Nat → Int → Int
  | [], _, _, last => last
  | c :: t, i, pos, last =>
    if i ≥ pos then last
    else
      match parseNumberToken (c :: t) with
      | some (v, n) =>
        if i + n ≤ pos then
          -- a successful parse consumes at least one character (n ≥ 1)
          parseLastNumberBeforeGo (t.drop (n - 1)) (i + n) pos v
        else parseLastNumberBeforeGo t (i + 1) pos last
      | none => parseLastNumberBeforeGo t (i + 1) pos last
termination_by s _ _ _ => s.length
decreasing_by
  all_goals simp [List.length_drop]
  all_goals omega

/-- `parse_last_number_before(text, keyword)`; −1 when the keyword is absent
or no number precedes it. -/
def parseLastNumberBefore (text keyword : Text) : Int :=
  match strStr text keyword with
  | none => -1
  | some pos => parseLastNumberBeforeGo text 0 pos (-1)

/-- Second loop of `parse_percent_value`: an ASCII integer followed by
optional spaces and a `'%'`. -/
def scanPercent : Text → Option Nat
  | [] => none
  | c :: t =>
    match parseIntAscii (c :: t) with
    | some (v, n) =>
      let after := ((c :: t).drop n).dropWhile (· = ' ')
      if after.head? = some '%' then some v else scanPercent t
    | none => scanPercent t

/-- Third loop of `parse_percent_value`: first ASCII integer anywhere. -/
def scanFirstAsciiInt : Text → Option Nat
  | [] => none
  | c :: t =>
    match parseIntAscii (c :: t) with
    | some (v, _) => some v
    | none => scanFirstAsciiInt t

/-- `parse_percent_value`: number after "百分之", else `N %`, else bare `N`.
A failed number parse after "百分之" falls through to the later scans, as in
the source. -/
def parsePercentValue (text : Text) : Option Nat :=
  let viaBaiFenZhi : Option Nat :=
    match strStr text "百分之".data with
    | some pos => (parseNumberToken (text.drop (pos + 3))).map (·.1)
    | none => none
  (viaBaiFenZhi.orElse fun _ => scanPercent text).orElse fun _ =>
    scanFirstAsciiInt text

/-- `parse_temperature_threshold_x10`. -/
def parseTemperatureThresholdX10 (text : Text) : Option Int :=
  let c1 := parseLastNumberBefore text "摄氏度".data
  let c2 := if c1 < 0 then parseLastNumberBefore text "度".data else c1
  let c3 := if c2 < 0 then parseLastNumberBefore text "℃".data else c2
  if c3 < 0 then none else some (c3 * 10)

/-- `trim_ascii_inplace`: strip leading ASCII whitespace, then trailing
ASCII whitespace / `.` `!` `?`, then trailing full-width 。！？ (the two
trailing passes run once in that order, as in the source). -/
def trimAscii (s : Text) : Text :=
  let isLead : Char → Bool := fun c => c = ' ' || c = '\t' || c = '\n' || c = '\r'
  let isTrailA : Char → Bool := fun c =>
    c = ' ' || c = '\t' || c = '\n' || c = '\r' || c = '.' || c = '!' || c = '?'
  let isTrailZh : Char → Bool := fun c => c = '。' || c = '！' || c = '？'
  let s1 := s.dropWhile isLead
  let s2 := (s1.reverse.dropWhile isTrailA).reverse
  ((s2.reverse.dropWhile isTrailZh).reverse)

/-! ## Control plane: configuration constants

The `MIMI_CONTROL_*` constants are referenced by control_plane.c but their
defining header is not present under src/. -/

/-- Modelled from the spec: `IDEMP_CACHE_SIZE` — "bounded cache size (16)"
(spec §3, Idempotency entry); the macro `MIMI_CONTROL_IDEMP_CACHE_SIZE` is
not defined in the sources provided. -/
def MIMI_CONTROL_IDEMP_CACHE_SIZE : Nat := 16

/-- Modelled from the spec: `IDEMP_WINDOW_MS` — "TTL window (e.g., 30 s)"
(spec §3); the macro `MIMI_CONTROL_IDEMP_WINDOW_MS` is not defined in the
sources provided. -/
def MIMI_CONTROL_IDEMP_WINDOW_MS : Int := 30000

/-- Modelled from the spec: `MAX_ALARMS` — "Fixed-capacity pool (≤ 8)"
(spec §3, Alarm slot); the macro is not defined in the sources provided. -/
def MIMI_CONTROL_MAX_ALARMS : Nat := 8

/-- Modelled from the spec: `MAX_TEMP_RULES` — "Fixed-capacity pool (≤ 8)"
(spec §3, Temperature rule slot); the macro is not defined in the sources
provided. -/
def MIMI_CONTROL_MAX_TEMP_RULES : Nat := 8

/-! ## Request identifiers (`build_request_id`, `fnv1a32`) -/

/-- UTF-8 encoding of one codepoint (bytes seen by the C byte loops). -/
def charUtf8Bytes (c : Char) : List Nat :=
  let n := c.toNat
  if n < 0x80 then [n]
  else if n < 0x800 then
    [0xC0 ||| (n >>> 6), 0x80 ||| (n &&& 0x3F)]
  else if n < 0x10000 then
    [0xE0 ||| (n >>> 12), 0x80 ||| ((n >>> 6) &&& 0x3F), 0x80 ||| (n &&& 0x3F)]
  else
    [0xF0 ||| (n >>> 18), 0x80 ||| ((n >>> 12) &&& 0x3F),
     0x80 ||| ((n >>> 6) &&& 0x3F), 0x80 ||| (n &&& 0x3F)]

/-- UTF-8 byte sequence of a text. -/
def textUtf8Bytes (t : Text) : List Nat := (t.map charUtf8Bytes).flatten

/-- `fnv1a32` over a byte sequence, with 32-bit wraparound. -/
def fnv1a32 (bytes : List Nat) : Nat :=
  bytes.foldl (fun h b => ((h ^^^ b) * 16777619) % 4294967296) 2166136261

/-- Lowercase hex digit. -/
def hexDigit (n : Nat) : Char :=
  if n < 10 then Char.ofNat (48 + n) else Char.ofNat (87 + n)

/-- `%08x` formatting of a 32-bit value: exactly eight hex digits. -/
def toHex8 (n : Nat) : Text :=
  ((List.range 8).reverse).map fun k => hexDigit ((n >>> (4 * k)) % 16)

/-- C `media_type[0] ? media_type : "text"`. -/
def effectiveMediaType (msg : MimiMsg) : Text :=
  if msg.mediaType = [] then "text".data else msg.mediaType

/-- `build_request_id`: `meta_json.request_id` when present, else
`auto-<fnv1a32 hex>` over `channel|chat_id|media_type|content`.  The
40-byte output buffer truncates to 39 characters; the 256-byte format
buffer truncates the hash input to 255 bytes. -/
def buildRequestId (msg : MimiMsg) : Text :=
  let fromMeta : Option Text :=
    if msg.metaJson ≠ [] then
      match msg.metaRequestId with
      | some rid => if rid ≠ [] then some (rid.take 39) else none
      | none => none
    else none
  match fromMeta with
  | some rid => rid
  | none =>
    let bytes :=
      (textUtf8Bytes msg.channel ++ [124] ++ textUtf8Bytes msg.chatId ++ [124] ++
       textUtf8Bytes (effectiveMediaType msg) ++ [124] ++
       textUtf8Bytes msg.content).take 255
    "auto-".data ++ toHex8 (fnv1a32 bytes)

/-! ## Control plane: command / result data model (control_plane.h) -/

inductive CmdType
  | noCmd
  | getVolume
  | setVolume
  | reboot
  | createAlarm
  | listAlarm
  | clearAlarm
  | createTempRule
  | listTempRule
  | clearTempRule
  | playMusic
  | stopMusic
deriving DecidableEq, Inhabited

/-- Integer value of the enum (order of declaration in the sources). -/
def cmdTypeInt : CmdType → Nat
  | .noCmd => 0
  | .getVolume => 1
  | .setVolume => 2
  | .reboot => 3
  | .createAlarm => 4
  | .listAlarm => 5
  | .clearAlarm => 6
  | .createTempRule => 7
  | .listTempRule => 8
  | .clearTempRule => 9
  | .playMusic => 10
  | .stopMusic => 11

structure ControlCommand where
  type : CmdType := .noCmd
  targetValue : Int := 0
  relative : Bool := false
  deltaValue : Int := 0
  capability : Text := []
  requestId : Text := []
  sourceChannel : Text := []
  sourceChatId : Text := []
  delayMs : Nat := 0
  alarmId : Nat := 0
  note : Text := []
  tempRuleId : Nat := 0
  tempThresholdX10 : Int := 0
  tempComparator : Int := 0
  tempActionType : Int := 0
  tempActionValue : Int := 0
deriving DecidableEq, Inhabited

structure ControlResult where
  handled : Bool := false
  success : Bool := false
  fromRule : Bool := false
  dedupHit : Bool := false
  pendingAction : Bool := false
  capability : Text := []
  requestId : Text := []
  responseText : Text := []
  beforeValue : Int := 0
  afterValue : Int := 0
deriving DecidableEq, Inhabited

/-- `idemp_entry_t`. -/
structure IdempEntry where
  used : Bool := false
  tsMs : Int := 0
  requestId : Text := []
  cachedResult : ControlResult := {}
deriving DecidableEq, Inhabited

/-- `alarm_slot_t`; `hasTimer` stands for a non-NULL `TimerHandle_t`. -/
structure AlarmSlot where
  active : Bool := false
  alarmId : Nat := 0
  dueMs : Int := 0
  hasTimer : Bool := false
  channel : Text := []
  chatId : Text := []
  note : Text := []
deriving DecidableEq, Inhabited

/-- `temp_rule_slot_t`. -/
structure TempRuleSlot where
  active : Bool := false
  ruleId : Nat := 0
  thresholdX10 : Int := 0
  comparator : Int := 0
  actionType : Int := 0
  actionValue : Int := 0
  lastTriggerMs : Int := 0
  note : Text := []
deriving DecidableEq, Inhabited

/-- Mutable state of the control plane together with its collaborators.
`volume` is audio.c `s_volume` (initially 80); `rebootArmed` is the armed
one-shot reboot timer delay; `playMusicOk`/`stopMusicOk` model the results
of the external voice-channel collaborator; `execCount` is a ghost counter
of capability `execute` invocations (one per `cap->execute` call). -/
structure ControlState where
  volume : Nat := 80
  idemp : List IdempEntry := List.replicate MIMI_CONTROL_IDEMP_CACHE_SIZE {}
  alarms : List AlarmSlot := List.replicate MIMI_CONTROL_MAX_ALARMS {}
  tempRules : List TempRuleSlot := List.replicate MIMI_CONTROL_MAX_TEMP_RULES {}
  nextAlarmId : Nat := 1
  nextTempRuleId : Nat := 1
  rebootArmed : Option Nat := none
  playMusicOk : Bool := true
  stopMusicOk : Bool := true
  execCount : Nat := 0
deriving DecidableEq, Inhabited

/-- `audio_get_volume` (audio.c). -/
def audioGetVolume (st : ControlState) : Nat := st.volume

/-- `audio_set_volume` (audio.c): clamps values above 100. -/
def audioSetVolume (st : ControlState) (v : Nat) : ControlState :=
  { st with volume := if v > 100 then 100 else v }

/-! ## Formatting helpers (snprintf pieces used in response texts) -/

/-- Decimal digits of a `Nat` (C `%d` / `%u` for non-negative values). -/
def natText (n : Nat) : Text := Nat.toDigits 10 n

/-- C `%d` for `Int`. -/
def intText (i : Int) : Text :=
  if i < 0 then '-' :: natText i.natAbs else natText i.toNat

/-- Rendering of `%.1f` applied to `delay_ms / 1000.0f`.  The parsers only
produce whole-second delays, for which this exact decimal expansion equals
the float rendering; float rounding on other inputs is not modelled. -/
def fmtDelaySec (delayMs : Nat) : Text :=
  natText (delayMs / 1000) ++ ".".data ++ natText (delayMs % 1000 / 100)

/-! ## Capabilities (validate / execute, control_plane.c) -/

/-- Fields the `execute` callbacks write into the shared `control_result_t`
(`response_text`, `before_value`, `after_value`, `pending_action`). -/
structure CapOut where
  responseText : Text := []
  beforeValue : Int := 0
  afterValue : Int := 0
  pendingAction : Bool := false
deriving DecidableEq, Inhabited

def validateGetVolume (_cmd : ControlCommand) : Option Text := none

def executeGetVolume (_now : Int) (_cmd : ControlCommand) (st : ControlState) :
    (Except Text CapOut) × ControlState :=
  let v : Int := audioGetVolume st
  (.ok { beforeValue := v, afterValue := v,
         responseText := "当前音量是百分之".data ++ intText v ++ "。".data }, st)

def validateSetVolume (cmd : ControlCommand) : Option Text :=
  if cmd.targetValue < 0 || cmd.targetValue > 100 then
    some ("目标音量超出范围(0-100): ".data ++ intText cmd.targetValue)
  else none

def executeSetVolume (_now : Int) (cmd : ControlCommand) (st : ControlState) :
    (Except Text CapOut) × ControlState :=
  let before : Int := audioGetVolume st
  -- `(uint8_t)cmd->target_value` cast
  let st := audioSetVolume st ((cmd.targetValue % 256).toNat)
  let after : Int := audioGetVolume st
  if after ≠ cmd.targetValue then
    (.error ("写入后回读不一致: expect=".data ++ intText cmd.targetValue ++
             " actual=".data ++ intText after), st)
  else if cmd.relative then
    let verb := if cmd.deltaValue ≥ 0 then "增大".data else "减小".data
    let delta := cmd.deltaValue.natAbs
    (.ok { beforeValue := before, afterValue := after,
           responseText := "已将音量".data ++ verb ++ "百分之".data ++
             natText delta ++ "，当前为百分之".data ++ intText after ++ "。".data },
     st)
  else
    (.ok { beforeValue := before, afterValue := after,
           responseText := "音量已设置为百分之".data ++ intText after ++ "。".data },
     st)

def validateReboot (cmd : ControlCommand) : Option Text :=
  if cmd.delayMs < 500 || cmd.delayMs > 3600 * 1000 then
    some ("重启延迟非法: ".data ++ natText cmd.delayMs ++ "ms".data)
  else none

def executeReboot (_now : Int) (cmd : ControlCommand) (st : ControlState) :
    (Except Text CapOut) × ControlState :=
  -- existing timer stopped/deleted, new one-shot armed (timer service succeeds)
  let st := { st with rebootArmed := some cmd.delayMs }
  (.ok { pendingAction := true,
         responseText := "设备将在".data ++ fmtDelaySec cmd.delayMs ++
           "秒后重启。".data }, st)

def validateAlarmCreate (cmd : ControlCommand) : Option Text :=
  if cmd.delayMs < 1000 || cmd.delayMs > 24 * 3600 * 1000 then
    some ("闹钟延迟非法: ".data ++ natText cmd.delayMs ++ "ms".data)
  else none

/-- Index of the first inactive alarm slot. -/
def firstInactiveAlarm : List AlarmSlot → Option Nat
  | [] => none
  | s :: rest =>
    if !s.active then some 0
    else (firstInactiveAlarm rest).map (· + 1)

def executeAlarmCreate (now : Int) (cmd : ControlCommand) (st : ControlState) :
    (Except Text CapOut) × ControlState :=
  match firstInactiveAlarm st.alarms with
  | none =>
    (.error ("闹钟已满，最多".data ++ natText MIMI_CONTROL_MAX_ALARMS ++ "个".data), st)
  | some i =>
    let alarmId := st.nextAlarmId
    let nextId := if st.nextAlarmId + 1 = 0 then 1 else st.nextAlarmId + 1
    let slot : AlarmSlot :=
      { active := true, alarmId := alarmId, dueMs := now + cmd.delayMs,
        hasTimer := true, channel := cmd.sourceChannel.take 15,
        chatId := cmd.sourceChatId.take 31, note := cmd.note.take 95 }
    let st := { st with alarms := st.alarms.set i slot, nextAlarmId := nextId }
    (.ok { pendingAction := true,
           responseText := "已创建闹钟#".data ++ natText alarmId ++ "，".data ++
             fmtDelaySec cmd.delayMs ++ "秒后提醒你。".data }, st)

def validateAlarmList (_cmd : ControlCommand) : Option Text := none

/-- `control_plane_get_active_alarms` (id and remaining time per slot). -/
def activeAlarmInfos (now : Int) (alarms : List AlarmSlot) : List (Nat × Nat) :=
  (alarms.filter (·.active)).map fun s =>
    (s.alarmId, if s.dueMs > now then (s.dueMs - now).toNat else 0)

def executeAlarmList (now : Int) (_cmd : ControlCommand) (st : ControlState) :
    (Except Text CapOut) × ControlState :=
  let infos := activeAlarmInfos now st.alarms
  if infos.length = 0 then
    (.ok { responseText := "当前没有活动闹钟。".data }, st)
  else
    let items := infos.map fun p =>
      "#".data ++ natText p.1 ++ "(".data ++ natText ((p.2 + 999) / 1000) ++ "s)".data
    (.ok { responseText :=
      ("当前有".data ++ natText infos.length ++ "个闹钟：".data ++
        (items.intersperse " ".data).flatten).take 191 }, st)

def validateAlarmClear (_cmd : ControlCommand) : Option Text := none

def emptyAlarmSlot : AlarmSlot := {}

/-- Clearing loop of `execute_alarm_clear`: clear every active slot when
`target = 0`, else only the first active slot with the matching id
(`break`).  Returns the new slots and the number cleared. -/
def clearAlarmSlots (target : Nat) : List AlarmSlot → List AlarmSlot × Nat
  | [] => ([], 0)
  | s :: rest =>
    if s.active && (target = 0 || s.alarmId = target) then
      if target ≠ 0 then (emptyAlarmSlot :: rest, 1)
      else
        let r := clearAlarmSlots target rest
        (emptyAlarmSlot :: r.1, r.2 + 1)
    else
      let r := clearAlarmSlots target rest
      (s :: r.1, r.2)

def executeAlarmClear (_now : Int) (cmd : ControlCommand) (st : ControlState) :
    (Except Text CapOut) × ControlState :=
  let target := cmd.alarmId
  let r := clearAlarmSlots target st.alarms
  let st := { st with alarms := r.1 }
  if target ≠ 0 && r.2 = 0 then
    (.error ("未找到闹钟#".data ++ natText target), st)
  else if target = 0 && r.2 = 0 then
    (.ok { responseText := "当前没有活动闹钟。".data }, st)
  else if target ≠ 0 then
    (.ok { responseText := "已取消闹钟#".data ++ natText target ++ "。".data }, st)
  else
    (.ok { responseText := "已取消全部闹钟（".data ++ natText r.2 ++ "个）。".data }, st)

def validateTempRuleCreate (cmd : ControlCommand) : Option Text :=
  if cmd.tempThresholdX10 < -500 || cmd.tempThresholdX10 > 1200 then
    some ("温度阈值超出范围(-50.0~120.0°C): ".data ++
      intText (cmd.tempThresholdX10 / 10) ++ ".".data ++
      natText (cmd.tempThresholdX10 % 10).natAbs)
  else if cmd.tempComparator ≠ 1 && cmd.tempComparator ≠ -1 then
    some "温度比较符无效".data
  else if cmd.tempActionType ≠ 1 && cmd.tempActionType ≠ 2 then
    some "温度动作类型无效".data
  else if cmd.tempActionType = 2 &&
      (cmd.tempActionValue < 0 || cmd.tempActionValue > 100) then
    some ("目标音量无效: ".data ++ intText cmd.tempActionValue)
  else none

def firstInactiveTempRule : List TempRuleSlot → Option Nat
  | [] => none
  | s :: rest =>
    if !s.active then some 0
    else (firstInactiveTempRule rest).map (· + 1)

/-- `"%d.%d"` rendering of a `threshold_x10` (`t/10`, `abs(t%10)`); C `/` and
`%` truncate toward zero, matching `Int.tdiv`/`Int.tmod`. -/
def thresholdText (t : Int) : Text :=
  intText (t.tdiv 10) ++ ".".data ++ natText (t.tmod 10).natAbs

def executeTempRuleCreate (_now : Int) (cmd : ControlCommand) (st : ControlState) :
    (Except Text CapOut) × ControlState :=
  match firstInactiveTempRule st.tempRules with
  | none =>
    (.error ("温度规则已满，最多".data ++ natText MIMI_CONTROL_MAX_TEMP_RULES ++
      "条".data), st)
  | some i =>
    let ruleId := st.nextTempRuleId
    let nextId := if st.nextTempRuleId + 1 = 0 then 1 else st.nextTempRuleId + 1
    let slot : TempRuleSlot :=
      { active := true, ruleId := ruleId, thresholdX10 := cmd.tempThresholdX10,
        comparator := cmd.tempComparator, actionType := cmd.tempActionType,
        actionValue := cmd.tempActionValue, lastTriggerMs := 0,
        note := cmd.note.take 95 }
    let st := { st with tempRules := st.tempRules.set i slot, nextTempRuleId := nextId }
    let cmp := if cmd.tempComparator = 1 then ">=".data else "<=".data
    if cmd.tempActionType = 2 then
      (.ok { responseText := ("已创建温度规则#".data ++ natText ruleId ++
        "：温度".data ++ cmp ++ thresholdText cmd.tempThresholdX10 ++
        "°C时，音量设为".data ++ intText cmd.tempActionValue ++ "%。".data).take 191 },
       st)
    else
      (.ok { responseText := ("已创建温度规则#".data ++ natText ruleId ++
        "：温度".data ++ cmp ++ thresholdText cmd.tempThresholdX10 ++
        "°C时提醒“".data ++
        (if slot.note ≠ [] then slot.note else "温度事件触发".data) ++
        "”。".data).take 191 }, st)

def validateTempRuleList (_cmd : ControlCommand) : Option Text := none

def executeTempRuleList (_now : Int) (_cmd : ControlCommand) (st : ControlState) :
    (Except Text CapOut) × ControlState :=
  let rules := st.tempRules.filter (·.active)
  if rules.length = 0 then
    (.ok { responseText := "当前没有温度规则。".data }, st)
  else
    let items := rules.map fun r =>
      let cmp := if r.comparator = 1 then ">=".data else "<=".data
      if r.actionType = 2 then
        "#".data ++ natText r.ruleId ++ "(".data ++ cmp ++
          thresholdText r.thresholdX10 ++ "°C->".data ++ intText r.actionValue ++
          "%)".data
      else
        "#".data ++ natText r.ruleId ++ "(".data ++ cmp ++
          thresholdText r.thresholdX10 ++ "°C->提醒)".data
    (.ok { responseText :=
      ("当前有".data ++ natText rules.length ++ "条温度规则：".data ++
        (items.intersperse " ".data).flatten).take 191 }, st)

def validateTempRuleClear (_cmd : ControlCommand) : Option Text := none

def clearTempRuleSlots (target : Nat) : List TempRuleSlot → List TempRuleSlot × Nat
  | [] => ([], 0)
  | s :: rest =>
    if s.active && (target = 0 || s.ruleId = target) then
      if target ≠ 0 then (({} : TempRuleSlot) :: rest, 1)
      else
        let r := clearTempRuleSlots target rest
        (({} : TempRuleSlot) :: r.1, r.2 + 1)
    else
      let r := clearTempRuleSlots target rest
      (s :: r.1, r.2)

def executeTempRuleClear (_now : Int) (cmd : ControlCommand) (st : ControlState) :
    (Except Text CapOut) × ControlState :=
  let target := cmd.tempRuleId
  let r := clearTempRuleSlots target st.tempRules
  let st := { st with tempRules := r.1 }
  if target ≠ 0 && r.2 = 0 then
    (.error ("未找到温度规则#".data ++ natText target), st)
  else if target = 0 && r.2 = 0 then
    (.ok { responseText := "当前没有温度规则。".data }, st)
  else if target ≠ 0 then
    (.ok { responseText := "已删除温度规则#".data ++ natText target ++ "。".data }, st)
  else
    (.ok { responseText := "已清空温度规则（".data ++ natText r.2 ++ "条）。".data }, st)

def validatePlayMusic (cmd : ControlCommand) : Option Text :=
  if cmd.note = [] then some "音乐内容为空".data else none

def executePlayMusic (_now : Int) (_cmd : ControlCommand) (st : ControlState) :
    (Except Text CapOut) × ControlState :=
  if st.playMusicOk then
    -- silent success: no assistant text, to avoid interrupting playback
    (.ok { pendingAction := true, responseText := [] }, st)
  else
    (.error "播放音乐失败: ESP_FAIL".data, st)

def validateStopMusic (_cmd : ControlCommand) : Option Text := none

def executeStopMusic (_now : Int) (_cmd : ControlCommand) (st : ControlState) :
    (Except Text CapOut) × ControlState :=
  -- ESP_OK and ESP_ERR_INVALID_STATE both count as success in the source
  if st.stopMusicOk then
    (.ok { responseText := "已停止音乐播放。".data }, st)
  else
    (.error "停止音乐失败: ESP_FAIL".data, st)

/-- `control_capability_t`. -/
structure Capability where
  cmdType : CmdType
  name : Text
  timeoutMs : Nat
  retryMax : Nat
  validate : ControlCommand → Option Text
  execute : Int → ControlCommand → ControlState → (Except Text CapOut) × ControlState

/-- The static capability table `s_capabilities`. -/
def capabilities : List Capability :=
  [ { cmdType := .getVolume, name := "get_volume".data, timeoutMs := 500,
      retryMax := 0, validate := validateGetVolume, execute := executeGetVolume },
    { cmdType := .setVolume, name := "set_volume".data, timeoutMs := 500,
      retryMax := 0, validate := validateSetVolume, execute := executeSetVolume },
    { cmdType := .reboot, name := "reboot".data, timeoutMs := 1000,
      retryMax := 0, validate := validateReboot, execute := executeReboot },
    { cmdType := .createAlarm, name := "alarm_create".data, timeoutMs := 1000,
      retryMax := 0, validate := validateAlarmCreate, execute := executeAlarmCreate },
    { cmdType := .listAlarm, name := "alarm_list".data, timeoutMs := 500,
      retryMax := 0, validate := validateAlarmList, execute := executeAlarmList },
    { cmdType := .clearAlarm, name := "alarm_clear".data, timeoutMs := 1000,
      retryMax := 0, validate := validateAlarmClear, execute := executeAlarmClear },
    { cmdType := .createTempRule, name := "temp_rule_create".data, timeoutMs := 1000,
      retryMax := 0, validate := validateTempRuleCreate,
      execute := executeTempRuleCreate },
    { cmdType := .listTempRule, name := "temp_rule_list".data, timeoutMs := 500,
      retryMax := 0, validate := validateTempRuleList, execute := executeTempRuleList },
    { cmdType := .clearTempRule, name := "temp_rule_clear".data, timeoutMs := 1000,
      retryMax := 0, validate := validateTempRuleClear,
      execute := executeTempRuleClear },
    { cmdType := .playMusic, name := "play_music".data, timeoutMs := 1000,
      retryMax := 0, validate := validatePlayMusic, execute := executePlayMusic },
    { cmdType := .stopMusic, name := "stop_music".data, timeoutMs := 1000,
      retryMax := 0, validate := validateStopMusic, execute := executeStopMusic } ]

/-- `find_capability`. -/
def findCapability (t : CmdType) : Option Capability :=
  capabilities.find? fun c => c.cmdType = t

/-- Output of `execute_with_capability` on success: the `CapOut` fields plus
the capability name copied into the result. -/
structure ExecOk where
  out : CapOut
  capabilityName : Text
deriving DecidableEq, Inhabited

/-- Retry loop of `execute_with_capability` (`retry_max + 1` attempts,
stopping at the first success).  Each `cap->execute` invocation increments
the ghost `execCount`. -/
def execRetry (cap : Capability) (now : Int) (cmd : ControlCommand) :
    Nat → ControlState → (Except Text CapOut) × ControlState
  | 0, st =>
    let r := cap.execute now cmd { st with execCount := st.execCount + 1 }
    match r.1 with
    | .ok out => (.ok out, r.2)
    | .error e => (.error e, r.2)
  | n + 1, st =>
    let r := cap.execute now cmd { st with execCount := st.execCount + 1 }
    match r.1 with
    | .ok out => (.ok out, r.2)
    | .error _ => execRetry cap now cmd n r.2

/-- `execute_with_capability`. -/
def executeWithCapability (now : Int) (cmd : ControlCommand) (st : ControlState) :
    (Except Text ExecOk) × ControlState :=
  match findCapability cmd.type with
  | none => (.error ("未注册能力: ".data ++ natText (cmdTypeInt cmd.type)), st)
  | some cap =>
    match cap.validate cmd with
    | some e => (.error e, st)
    | none =>
      match execRetry cap now cmd cap.retryMax st with
      | (.ok out, st') => (.ok { out := out, capabilityName := cap.name }, st')
      | (.error e, st') => (.error e, st')

/-! ## Idempotency cache (`idemp_lookup`, `idemp_store`) -/

/-- `idemp_lookup`: first used entry matching the id within the TTL window;
a hit copies the cached result with `dedup_hit = true`. -/
def idempLookup (cache : List IdempEntry) (now : Int) (rid : Text) :
    Option ControlResult :=
  match cache.find? (fun e =>
      e.used && decide (e.requestId = rid) &&
      decide (now - e.tsMs ≤ MIMI_CONTROL_IDEMP_WINDOW_MS)) with
  | some e => some { e.cachedResult with dedupHit := true }
  | none => none

/-- Slot-selection loop of `idemp_store`: first unused slot, else the
least-recent timestamp (INT64_MAX sentinel). -/
def idempStoreIndexAux : List IdempEntry → Nat → Nat → Int → Nat
  | [], _, slot, _ => slot
  | e :: t, i, slot, oldest =>
    if !e.used then i
    else if e.tsMs < oldest then idempStoreIndexAux t (i + 1) i e.tsMs
    else idempStoreIndexAux t (i + 1) slot oldest

def idempStoreIndex (cache : List IdempEntry) : Nat :=
  idempStoreIndexAux cache 0 0 9223372036854775807

/-- `idemp_store` (the request id is truncated to the 40-byte field). -/
def idempStore (cache : List IdempEntry) (now : Int) (rid : Text)
    (result : ControlResult) : List IdempEntry :=
  cache.set (idempStoreIndex cache)
    { used := true, tsMs := now, requestId := rid.take 39, cachedResult := result }

/-! ## Command parsers (control_plane.c) -/

/-- `init_command_common`: source channel/chat and the request id.  The
struct fields are 16/32-byte buffers (15/31 characters). -/
def initCommandCommon (msg : MimiMsg) : ControlCommand :=
  { sourceChannel := msg.channel.take 15,
    sourceChatId := msg.chatId.take 31,
    requestId := buildRequestId msg }

/-- The static keyword arrays of `parse_volume_command`. -/
def volumeConceptualKeywords : List Text :=
  ["什么是音量".data, "音量是什么".data, "音量原理".data,
   "音量单位".data, "音量概念".data]

def volumeQueryKeywords : List Text :=
  ["多少".data, "几".data, "当前".data, "现在".data, "查询".data,
   "查看".data, "告诉我".data, "是多少".data, "啥".data, "?".data]

def volumeAbsoluteKeywords : List Text :=
  ["调到".data, "调成".data, "设置".data, "设为".data, "改到".data,
   "改成".data, "变成".data, "开到".data]

def volumeIncreaseKeywords : List Text :=
  ["增大".data, "增加".data, "调大".data, "大一点".data, "提高".data,
   "升高".data]

def volumeDecreaseKeywords : List Text :=
  ["减小".data, "减少".data, "调小".data, "小一点".data, "降低".data,
   "调低".data]

/-- `has_adjust_verb` of `parse_volume_command`. -/
def volumeHasAdjustVerb (text : Text) : Bool :=
  containsAny text volumeAbsoluteKeywords ||
  containsAny text volumeIncreaseKeywords ||
  containsAny text volumeDecreaseKeywords ||
  containsSub text "静音".data || containsSub text "最大".data ||
  containsSub text "最小".data

/-- The `get_volume` command produced by `parse_volume_command`. -/
def volumeQueryCmd (msg : MimiMsg) : ControlCommand :=
  { initCommandCommon msg with
    type := CmdType.getVolume, capability := "get_volume".data }

/-- The `set_volume` command skeleton with an absolute target. -/
def volumeSetCmd (msg : MimiMsg) (target : Int) : ControlCommand :=
  { initCommandCommon msg with
    type := CmdType.setVolume, capability := "set_volume".data,
    targetValue := target }

/-- The value branch of `parse_volume_command`: relative adjustment when an
increase/decrease verb is present (increase wins the direction, as in the
source), absolute clamp otherwise.  `vol` is the `audio_get_volume()`
base. -/
def volumeValueCmd (vol : Nat) (msg : MimiMsg) (value : Nat) : ControlCommand :=
  if containsAny msg.content volumeIncreaseKeywords ||
      containsAny msg.content volumeDecreaseKeywords then
    let isInc := containsAny msg.content volumeIncreaseKeywords
    let delta : Int := clampInt (value : Int) 0 100
    let target : Int := if isInc then (vol : Int) + delta else (vol : Int) - delta
    { volumeSetCmd msg (clampInt target 0 100) with
      relative := true, deltaValue := if isInc then delta else -delta }
  else volumeSetCmd msg (clampInt (value : Int) 0 100)

/-- `parse_volume_command`.  Returns the parsed command and the
clarification `reason` (empty when none); `vol` is the live volume read by
`audio_get_volume()` for relative adjustments. -/
def parseVolumeCommand (vol : Nat) (msg : MimiMsg) :
    Option (ControlCommand × Text) :=
  if !containsSub msg.content "音量".data then none
  else if containsAny msg.content volumeConceptualKeywords then none
  else if !volumeHasAdjustVerb msg.content &&
      containsAny msg.content volumeQueryKeywords then
    some (volumeQueryCmd msg, [])
  else if !volumeHasAdjustVerb msg.content then none
  else if containsSub msg.content "静音".data ||
      containsSub msg.content "最小".data then
    some (volumeSetCmd msg 0, [])
  else if containsSub msg.content "最大".data then
    some (volumeSetCmd msg 100, [])
  else
    match parsePercentValue msg.content with
    | some value => some (volumeValueCmd vol msg value, [])
    | none =>
      -- without a value, increase/decrease verbs default to 10 percent
      if containsAny msg.content volumeIncreaseKeywords ||
          containsAny msg.content volumeDecreaseKeywords then
        some (volumeValueCmd vol msg 10, [])
      else
        some ({ initCommandCommon msg with
          type := CmdType.setVolume, capability := "set_volume".data },
          "未识别到目标音量，请说例如“调到30%”或“减小10%”。".data)

/-- `parse_reboot_command`. -/
def parseRebootCommand (msg : MimiMsg) : Option ControlCommand :=
  let text := msg.content
  if !containsSub text "重启".data then none
  else if containsSub text "不要重启".data then none
  else
    let base := { initCommandCommon msg with
      type := CmdType.reboot, capability := "reboot".data }
    let minutes := parseLastNumberBefore text "分钟后".data
    let seconds := parseLastNumberBefore text "秒后".data
    if minutes > 0 then some { base with delayMs := minutes.toNat * 60 * 1000 }
    else if seconds > 0 then some { base with delayMs := seconds.toNat * 1000 }
    else some { base with delayMs := 2000 }

/-- Note extraction shared by alarm and remind rules: text after "提醒",
skipping spaces and an optional "我". -/
def noteAfterRemind (text : Text) : Text :=
  match strStr text "提醒".data with
  | some pos =>
    let p := (text.drop (pos + 2)).dropWhile fun c => c = ' ' || c = '\t'
    let p := if "我".data.isPrefixOf p then p.drop 1 else p
    p.dropWhile fun c => c = ' ' || c = '\t'
  | none => text

/-- `parse_alarm_command`. -/
def parseAlarmCommand (msg : MimiMsg) : Option ControlCommand :=
  let text := msg.content
  if !(containsSub text "闹钟".data || containsSub text "提醒".data) then none
  else
    let base := { initCommandCommon msg with capability := "alarm".data }
    if containsSub text "查看闹钟".data || containsSub text "闹钟列表".data ||
        containsSub text "还有几个闹钟".data then
      some { base with type := CmdType.listAlarm }
    else if containsSub text "取消闹钟".data || containsSub text "清空闹钟".data ||
        containsSub text "删除闹钟".data then
      let alarmId := parseLastNumberBefore text "闹钟".data
      some { base with
        type := CmdType.clearAlarm,
        alarmId := if alarmId > 0 then alarmId.toNat else 0 }
    else
      let minutes := parseLastNumberBefore text "分钟后".data
      let seconds := parseLastNumberBefore text "秒后".data
      if minutes ≤ 0 && seconds ≤ 0 then none
      else
        let delayMs := if minutes > 0 then minutes.toNat * 60 * 1000
                       else seconds.toNat * 1000
        let p := noteAfterRemind text
        let note := if p ≠ [] then p.take 95 else "时间到了。".data.take 95
        some { base with
          type := CmdType.createAlarm, capability := "alarm_create".data,
          delayMs := delayMs, note := note }

/-- `parse_temp_rule_command`. -/
def parseTempRuleCommand (msg : MimiMsg) : Option (ControlCommand × Text) :=
  let text := msg.content
  if !containsSub text "温度".data then none
  else
    let listRule := containsSub text "温度规则".data &&
      (containsSub text "查看".data || containsSub text "列表".data ||
       containsSub text "多少".data)
    let clearRule := containsSub text "温度规则".data &&
      (containsSub text "清空".data || containsSub text "删除".data ||
       containsSub text "取消".data)
    let setRule := (containsSub text "规则".data || containsSub text "温度".data) &&
      (containsSub text "高于".data || containsSub text "超过".data ||
       containsSub text "大于".data || containsSub text "低于".data ||
       containsSub text "小于".data || containsSub text "不高于".data ||
       containsSub text "不低于".data) &&
      (containsSub text "提醒".data || containsSub text "音量".data)
    if !listRule && !clearRule && !setRule then none
    else
      let base := initCommandCommon msg
      if listRule then
        some ({ base with
          type := CmdType.listTempRule, capability := "temp_rule_list".data }, [])
      else if clearRule then
        let ruleId := parseLastNumberBefore text "规则".data
        some ({ base with
          type := CmdType.clearTempRule, capability := "temp_rule_clear".data,
          tempRuleId := if ruleId > 0 then ruleId.toNat else 0 }, [])
      else
        let base := { base with
          type := CmdType.createTempRule, capability := "temp_rule_create".data }
        match parseTemperatureThresholdX10 text with
        | none =>
          some (base, "未识别到温度阈值，请说例如“温度高于30度时音量调到40%”。".data)
        | some thresholdX10 =>
          let base := { base with tempThresholdX10 := thresholdX10 }
          if containsSub text "高于".data || containsSub text "超过".data ||
              containsSub text "大于".data || containsSub text "不低于".data then
            let base := { base with tempComparator := 1 }
            if containsSub text "音量".data then
              match parsePercentValue text with
              | none =>
                some (base, "未识别到目标音量，请说例如“音量调到40%”。".data)
              | some volume =>
                some ({ base with
                  tempActionType := 2,
                  tempActionValue := clampInt (volume : Int) 0 100 }, [])
            else
              let p := noteAfterRemind text
              let note := if p ≠ [] then p.take 95 else "温度事件触发".data.take 95
              some ({ base with tempActionType := 1, note := note }, [])
          else if containsSub text "低于".data || containsSub text "小于".data ||
              containsSub text "不高于".data then
            let base := { base with tempComparator := -1 }
            if containsSub text "音量".data then
              match parsePercentValue text with
              | none =>
                some (base, "未识别到目标音量，请说例如“音量调到40%”。".data)
              | some volume =>
                some ({ base with
                  tempActionType := 2,
                  tempActionValue := clampInt (volume : Int) 0 100 }, [])
            else
              let p := noteAfterRemind text
              let note := if p ≠ [] then p.take 95 else "温度事件触发".data.take 95
              some ({ base with tempActionType := 1, note := note }, [])
          else
            some (base, "未识别到比较条件，请使用“高于/低于”。".data)

/-- `parse_music_command`; the query is the text after the first matching
play keyword (in the fixed order of the source), trimmed, defaulting to
"轻音乐". -/
def musicStopKeywords : List Text :=
  ["停止音乐".data, "暂停音乐".data, "关闭音乐".data, "停掉音乐".data,
   "停歌".data, "别放了".data]

def musicPlayKeywords : List Text :=
  ["播放音乐".data, "放音乐".data, "来点音乐".data, "来首歌".data,
   "放首歌".data, "播一首".data]

def parseMusicCommand (msg : MimiMsg) : Option ControlCommand :=
  let text := msg.content
  let isStop := containsAny text musicStopKeywords
  let isPlay := containsAny text musicPlayKeywords
  if !isStop && !isPlay then none
  else
    let base := initCommandCommon msg
    if isStop then
      some { base with type := CmdType.stopMusic, capability := "stop_music".data }
    else
      let after : Text :=
        match strStr text "播放音乐".data with
        | some pos => text.drop (pos + 4)
        | none =>
          match strStr text "放音乐".data with
          | some pos => text.drop (pos + 3)
          | none =>
            match strStr text "来点音乐".data with
            | some pos => text.drop (pos + 4)
            | none =>
              match strStr text "来首歌".data with
              | some pos => text.drop (pos + 3)
              | none =>
                match strStr text "放首歌".data with
                | some pos => text.drop (pos + 3)
                | none =>
                  match strStr text "播一首".data with
                  | some pos => text.drop (pos + 3)
                  | none => text
      let note := trimAscii (after.take 95)
      let note := if note = [] then "轻音乐".data else note
      some { base with
        type := CmdType.playMusic, capability := "play_music".data, note := note }

/-- The recognizer chain of `control_plane_try_handle_message`:
reboot ‖ alarm ‖ temp-rule ‖ music ‖ volume. -/
def parseCommand (vol : Nat) (msg : MimiMsg) : Option (ControlCommand × Text) :=
  match parseRebootCommand msg with
  | some c => some (c, [])
  | none =>
    match parseAlarmCommand msg with
    | some c => some (c, [])
    | none =>
      match parseTempRuleCommand msg with
      | some r => some r
      | none =>
        match parseMusicCommand msg with
        | some c => some (c, [])
        | none => parseVolumeCommand vol msg

/-! ## `control_plane_try_handle_message` -/

/-- Body of `control_plane_try_handle_message` after a command is
recognized: idempotency lookup, clarification short-circuit, execution, and
the store of the produced result. -/
def handleParsedCommand (st : ControlState) (now : Int) (cmd : ControlCommand)
    (reason : Text) : ControlResult × ControlState :=
  let base : ControlResult :=
    { handled := true, fromRule := true, requestId := cmd.requestId.take 39 }
  match idempLookup st.idemp now cmd.requestId with
  | some cached =>
    ({ cached with dedupHit := true, handled := true, fromRule := true }, st)
  | none =>
    if reason ≠ [] then
      let r := { base with success := false, responseText := reason.take 191 }
      (r, { st with idemp := idempStore st.idemp now cmd.requestId r })
    else
      match executeWithCapability now cmd st with
      | (.error e, st') =>
        let r := { base with
          success := false,
          responseText := ("操作失败：".data ++ e ++ "。".data).take 191 }
        (r, { st' with idemp := idempStore st'.idemp now cmd.requestId r })
      | (.ok ex, st') =>
        let r := { base with
          success := true,
          capability := ex.capabilityName.take 23,
          responseText := ex.out.responseText.take 191,
          beforeValue := ex.out.beforeValue,
          afterValue := ex.out.afterValue,
          pendingAction := ex.out.pendingAction }
        (r, { st' with idemp := idempStore st'.idemp now cmd.requestId r })

/-- `control_plane_try_handle_message`.  Returns the (zero-initialized, then
filled) result and the updated control state.  Audit-ring appends are
diagnostics only and are not modelled. -/
def tryHandleMessage (st : ControlState) (now : Int) (msg : MimiMsg) :
    ControlResult × ControlState :=
  if effectiveMediaType msg ≠ "voice".data then ({}, st)
  else
    match parseCommand st.volume msg with
    | none => ({}, st)
    | some (cmd, reason) => handleParsedCommand st now cmd reason

/-! ## Alarm timer callback (`alarm_timer_cb`) -/

/-- `alarm_timer_cb` with the timer id resolving to slot `idx`.  `pushOk`
abstracts the outcome of `message_bus_push_outbound` for the reminder.
Returns (new state, enqueued message if any, whether the reminder was freed
after a failed enqueue).  Under the lock the callback reads and clears the
slot; an inactive slot yields `alarm_id = 0` and an early return. -/
def alarmTimerCb (st : ControlState) (idx : Nat) (pushOk : Bool) :
    ControlState × Option MimiMsg × Bool :=
  if idx < st.alarms.length then
    let slot := st.alarms.getD idx emptyAlarmSlot
    if slot.active then
      let st' := { st with alarms := st.alarms.set idx emptyAlarmSlot }
      if slot.alarmId = 0 then (st', none, false)
      else
        let content :=
          ("闹钟提醒：".data ++
            (if slot.note ≠ [] then slot.note else "时间到了。".data)).take 191
        let m : MimiMsg :=
          { channel := if slot.channel ≠ [] then slot.channel else "system".data,
            chatId := if slot.chatId ≠ [] then slot.chatId else "alarm".data,
            content := content }
        if pushOk then (st', some m, false) else (st', none, true)
    else (st, none, false)
  else (st, none, false)

/-! ## Agent loop (agent_loop.c) -/

def MIMI_AGENT_MAX_TOOL_ITER : Nat := 10

def MIMI_AGENT_MAX_CONTEXT_BYTES : Nat := 24 * 1024

def MIMI_AGENT_TOOL_RESULT_MAX_BYTES : Nat := 2048

def MIMI_AGENT_TOOL_RESULTS_TOTAL_MAX : Nat := 4096

def TOOL_OUTPUT_SIZE : Nat := 12 * 1024

def TOOL_BUDGET_EXCEEDED_MSG : Text :=
  "Error: tool result budget exceeded on device".data

/-- Fixed truncation suffix of `truncate_tool_output_if_needed` (37 bytes). -/
def toolTruncSuffix : Text := "\n...[tool output truncated by budget]".data

/-- The user-facing terminal messages of the ReAct loop. -/
def timeoutFinalText : Text := "这次处理超时了，请把问题拆小一点再试。".data

def ctxOomFinalText : Text := "设备内存紧张，暂时无法继续处理。".data

def ctxBudgetFinalText : Text := "上下文太长了，请精简后再问我。".data

def toolBudgetFinalText : Text := "工具返回内容太大了，请把任务范围缩小一点。".data

def iterLimitFinalText : Text := "工具调用次数到上限了，请换个更简短的问法。".data

def llmAuthFinalText : Text :=
  ("LLM 鉴权失败：API Key 无效或与当前 provider 不匹配。请执行 set_api_key <KEY>，" ++
   "必要时执行 set_model_provider openai 或 set_model_provider anthropic。").data

def llmGenericFinalText : Text := "LLM 调用失败，请稍后重试。".data

def fallbackFinalText : Text := "Sorry, I encountered an error.".data

/-- The outer `WORKING_PHRASES` array (the shadowed inner array is dead
code; the push uses these three phrases). -/
def WORKING_PHRASES : List Text :=
  ["我在处理，请稍等一下…".data, "收到，正在帮你查…".data,
   "正在执行中，马上给你结果…".data]

/-- `truncate_tool_output_if_needed` over a buffer of `bufSize` bytes. -/
def truncateToolOutputIfNeeded (bufSize : Nat) (out : Text) : Text :=
  if out.length ≤ MIMI_AGENT_TOOL_RESULT_MAX_BYTES then out
  else
    let hardLimit :=
      if MIMI_AGENT_TOOL_RESULT_MAX_BYTES ≥ bufSize then bufSize - 1
      else MIMI_AGENT_TOOL_RESULT_MAX_BYTES
    if hardLimit ≤ toolTruncSuffix.length + 1 then out.take hardLimit
    else
      -- keep + suffix ≤ bufSize − 1, so the bounded strncat appends fully
      out.take (hardLimit - toolTruncSuffix.length) ++ toolTruncSuffix

/-- `llm_tool_call_t`. -/
structure ToolCall where
  id : Text := []
  name : Text := []
  input : Text := []
deriving DecidableEq, Inhabited

/-- One message of the cJSON `messages` array: a plain user turn, an
assistant content array (text + tool_use blocks), or a user content array
of tool_result blocks. -/
inductive ChatMsg
  | user (content : Text)
  | assistantContent (text : Text) (calls : List ToolCall)
  | toolResults (results : List (Text × Text))
deriving DecidableEq, Inhabited

/-- Outcome of one `llm_chat_tools` call: transport/API failure carrying
`llm_get_last_http_status` and `llm_get_last_error_message`, or a parsed
response (`text`, `tool_use`, `calls`). -/
inductive LLMOutcome
  | failed (httpStatus : Int) (errMsg : Text)
  | response (text : Text) (toolUse : Bool) (calls : List ToolCall)

/-- Aggregate result of `build_tool_results`: the tool_result contents, the
`budget_exceeded` flag, and the number of `tool_registry_execute` calls. -/
structure ToolResultsOut where
  results : List (Text × Text) := []
  exceeded : Bool := false
  execCount : Nat := 0
deriving DecidableEq, Inhabited

/-- `build_tool_results`: run each call unless the cumulative budget is
already exhausted, truncate per-tool, and replace outputs past the
cumulative cap with the fixed marker.  The tool that crosses the cap is
still executed; its output is replaced. -/
def buildToolResultsGo (toolExec : ToolCall → Text) :
    List ToolCall → Nat → Bool → ToolResultsOut
  | [], _, exhausted => { exceeded := exhausted }
  | call :: rest, totalBytes, exhausted =>
    if exhausted then
      let r := buildToolResultsGo toolExec rest totalBytes true
      { r with results := (call.id, TOOL_BUDGET_EXCEEDED_MSG) :: r.results }
    else
      -- the 12 KiB output buffer bounds what the registry can return
      let out := truncateToolOutputIfNeeded TOOL_OUTPUT_SIZE
        ((toolExec call).take (TOOL_OUTPUT_SIZE - 1))
      if totalBytes + out.length > MIMI_AGENT_TOOL_RESULTS_TOTAL_MAX then
        let r := buildToolResultsGo toolExec rest totalBytes true
        { r with results := (call.id, TOOL_BUDGET_EXCEEDED_MSG) :: r.results,
                 execCount := r.execCount + 1 }
      else
        let r := buildToolResultsGo toolExec rest (totalBytes + out.length) false
        { r with results := (call.id, out) :: r.results,
                 execCount := r.execCount + 1 }

def buildToolResults (toolExec : ToolCall → Text) (calls : List ToolCall) :
    ToolResultsOut :=
  buildToolResultsGo toolExec calls 0 false

/-- External collaborators of one turn, as oracles: the LLM (indexed by call
number), the tool registry, cJSON serialization length, the session history,
`build_user_content_with_meta` (file-driven hints), the wall-clock timeout
check at the entry of each iteration, and whether the outbound queue accepts
pushes. -/
structure AgentEnv where
  llm : Nat → LLMOutcome
  toolExec : ToolCall → Text
  serializedSize : List ChatMsg → Nat
  systemPrompt : Text
  history : List ChatMsg
  userContent : Option Text
  timedOut : Nat → Bool
  outboundAccepts : Bool
  phraseIdx : Nat

/-- `user_text_for_llm`: the built user content when non-empty, else the raw
message content. -/
def userTextFor (env : AgentEnv) (msg : MimiMsg) : Text :=
  match env.userContent with
  | some c => if c ≠ [] then c else msg.content
  | none => msg.content

/-- Mutable locals of the ReAct loop. -/
structure LoopState where
  msgs : List ChatMsg := []
  iteration : Nat := 0
  llmCalls : Nat := 0
  toolExecs : Nat := 0
  statusPushes : Nat := 0
  sentWorkingStatus : Bool := false
  hitTimeout : Bool := false
  hitContextBudget : Bool := false
  hitToolBudget : Bool := false
  hitLlmError : Bool := false
  producedFinalResponse : Bool := false
  finalText : Option Text := none

/-- Auth-failure classification of an LLM error (`http 401` or one of the
three auth substrings). -/
def llmErrorIsAuth (httpStatus : Int) (errMsg : Text) : Bool :=
  decide (httpStatus = 401) || containsSub errMsg "invalid x-api-key".data ||
  containsSub errMsg "authentication_error".data ||
  containsSub errMsg "invalid_api_key".data

/-- One-shot working-status push (the `MIMI_AGENT_SEND_WORKING_STATUS`
block).  Modelled from the spec for the flag's value: "Optionally emit one
working status message on the first iteration for non-system channels"
(spec §4.3 step 3); the macro is not defined in the sources provided, so
the block is taken as enabled.  On a failed push the status message is
freed and `sent_working_status` stays false. -/
def sendWorkingStatus (env : AgentEnv) (msg : MimiMsg) (s : LoopState) : LoopState :=
  if !s.sentWorkingStatus && msg.channel ≠ "system".data then
    if env.outboundAccepts then
      { s with statusPushes := s.statusPushes + 1, sentWorkingStatus := true }
    else s
  else s

/-- The ReAct loop (`while (iteration < MIMI_AGENT_MAX_TOOL_ITER)`); `fuel`
is `MIMI_AGENT_MAX_TOOL_ITER − iteration`. -/
def reactLoop (env : AgentEnv) (msg : MimiMsg) : Nat → LoopState → LoopState
  | 0, s => s
  | fuel + 1, s =>
    if env.timedOut s.iteration then
      { s with hitTimeout := true, finalText := some timeoutFinalText }
    else
      -- context_bytes = |system_prompt| + |serialized(messages)|
      if env.systemPrompt.length + env.serializedSize s.msgs >
          MIMI_AGENT_MAX_CONTEXT_BYTES then
        { s with hitContextBudget := true, finalText := some ctxBudgetFinalText }
      else
        let s := sendWorkingStatus env msg s
        let outcome := env.llm s.llmCalls
        let s := { s with llmCalls := s.llmCalls + 1 }
        match outcome with
        | .failed httpStatus errMsg =>
          { s with hitLlmError := true,
                   finalText := some (if llmErrorIsAuth httpStatus errMsg
                     then llmAuthFinalText else llmGenericFinalText) }
        | .response text toolUse calls =>
          if !toolUse then
            if text ≠ [] then
              { s with finalText := some text, producedFinalResponse := true }
            else s
          else
            let msgs := s.msgs ++ [ChatMsg.assistantContent text calls]
            let tr := buildToolResults env.toolExec calls
            let msgs := msgs ++ [ChatMsg.toolResults tr.results]
            let s := { s with msgs := msgs, toolExecs := s.toolExecs + tr.execCount }
            if tr.exceeded then
              { s with hitToolBudget := true,
                       finalText := some toolBudgetFinalText }
            else reactLoop env msg fuel { s with iteration := s.iteration + 1 }

/-- Observable outcome of one full turn of `agent_loop_task`. -/
structure TurnResult where
  control : ControlResult := {}
  controlState : ControlState := {}
  sessionAppends : List (Text × Text) := []
  outboundFinal : List Text := []
  statusPushes : Nat := 0
  llmCalls : Nat := 0
  toolExecs : Nat := 0
  hitTimeout : Bool := false
  hitContextBudget : Bool := false
  hitToolBudget : Bool := false
  hitIterLimit : Bool := false
  hitLlmError : Bool := false
  outboundEnqueueFailed : Bool := false
  producedFinalResponse : Bool := false
  finalText : Option Text := none
  success : Bool := false

/-- The fresh `messages` array of a turn: parsed history plus the current
user message. -/
def initialLoopState (env : AgentEnv) (msg : MimiMsg) : LoopState :=
  { msgs := env.history ++ [ChatMsg.user (userTextFor env msg)] }

/-- Finalization of the LLM pipeline from the loop's exit state: the
iteration-limit check, session appends, and the final outbound push (the
fallback error when no final text was produced). -/
def finalizeLlmTurn (cres : ControlResult) (cst' : ControlState) (env : AgentEnv)
    (msg : MimiMsg) (s1 : LoopState) : TurnResult :=
  let hitIterLimit : Bool :=
    s1.finalText.isNone && decide (s1.iteration ≥ MIMI_AGENT_MAX_TOOL_ITER)
  let s2 :=
    if hitIterLimit then { s1 with finalText := some iterLimitFinalText } else s1
  let base : TurnResult :=
    { control := cres, controlState := cst', statusPushes := s2.statusPushes,
      llmCalls := s2.llmCalls, toolExecs := s2.toolExecs,
      hitTimeout := s2.hitTimeout, hitContextBudget := s2.hitContextBudget,
      hitToolBudget := s2.hitToolBudget, hitIterLimit := hitIterLimit,
      hitLlmError := s2.hitLlmError,
      producedFinalResponse := s2.producedFinalResponse,
      finalText := s2.finalText }
  let finalNonEmpty : Bool := match s2.finalText with
    | some t => !t.isEmpty
    | none => false
  let base :=
    if finalNonEmpty then
      let t := s2.finalText.getD []
      let base := { base with
        sessionAppends := [("user".data, userTextFor env msg),
                           ("assistant".data, t)] }
      if env.outboundAccepts then { base with outboundFinal := [t] }
      else { base with outboundEnqueueFailed := true }
    else
      if env.outboundAccepts then { base with outboundFinal := [fallbackFinalText] }
      else { base with outboundEnqueueFailed := true }
  { base with
    success := base.producedFinalResponse && !base.hitTimeout &&
      !base.hitContextBudget && !base.hitToolBudget && !base.hitIterLimit &&
      !base.hitLlmError && !base.outboundEnqueueFailed }

/-- The LLM pipeline of a turn (steps 1–5 of `agent_loop_task` when the
control plane did not handle the message). -/
def runLlmPipeline (cres : ControlResult) (cst' : ControlState) (env : AgentEnv)
    (msg : MimiMsg) : TurnResult :=
  finalizeLlmTurn cres cst' env msg
    (reactLoop env msg MIMI_AGENT_MAX_TOOL_ITER (initialLoopState env msg))

/-- One turn of `agent_loop_task` for a message popped from inbound:
control-plane fast path, else the LLM pipeline with finalization.  Session
appends are recorded as (role, text) pairs; `outboundFinal` holds the
contents of successfully enqueued final messages (the optional working
status is counted separately in `statusPushes`). -/
def runTurn (cst : ControlState) (now : Int) (env : AgentEnv) (msg : MimiMsg) :
    TurnResult :=
  let (cres, cst') := tryHandleMessage cst now msg
  if cres.handled then
    if cres.responseText ≠ [] then
      let appends := [("user".data, msg.content),
                      ("assistant".data, cres.responseText)]
      if env.outboundAccepts then
        { control := cres, controlState := cst', sessionAppends := appends,
          outboundFinal := [cres.responseText], producedFinalResponse := true,
          success := cres.success }
      else
        { control := cres, controlState := cst', sessionAppends := appends,
          outboundEnqueueFailed := true, success := false }
    else if cres.success then
      -- silent deterministic action (e.g. play_music): counted as completed
      { control := cres, controlState := cst', producedFinalResponse := true,
        success := cres.success }
    else
      { control := cres, controlState := cst', success := cres.success }
  else
    runLlmPipeline cres cst' env msg

/-- The counters of `agent_stats_state_t` updated by `record_turn_stats`
(latency sums are time measurements and are not modelled). -/
structure AgentStats where
  totalTurns : Nat := 0
  successTurns : Nat := 0
  failedTurns : Nat := 0
  timeoutTurns : Nat := 0
  contextBudgetHits : Nat := 0
  toolBudgetHits : Nat := 0
  iterLimitHits : Nat := 0
  llmErrorTurns : Nat := 0
  outboundEnqueueFailures : Nat := 0
deriving DecidableEq, Inhabited

/-- `record_turn_stats`. -/
def recordTurnStats (s : AgentStats) (r : TurnResult) : AgentStats :=
  { totalTurns := s.totalTurns + 1,
    successTurns := s.successTurns + (if r.success then 1 else 0),
    failedTurns := s.failedTurns + (if r.success then 0 else 1),
    timeoutTurns := s.timeoutTurns + (if r.hitTimeout then 1 else 0),
    contextBudgetHits := s.contextBudgetHits + (if r.hitContextBudget then 1 else 0),
    toolBudgetHits := s.toolBudgetHits + (if r.hitToolBudget then 1 else 0),
    iterLimitHits := s.iterLimitHits + (if r.hitIterLimit then 1 else 0),
    llmErrorTurns := s.llmErrorTurns + (if r.hitLlmError then 1 else 0),
    outboundEnqueueFailures :=
      s.outboundEnqueueFailures + (if r.outboundEnqueueFailed then 1 else 0) }

/-! ## Helper lemmas -/

theorem outboundRetryDelayClamp_le (n : Nat) (d : Nat) (h : d ≤ 5000) :
    outboundRetryDelayClamp n d ≤ 5000 := by
  induction n generalizing d with
  | zero => simpa [outboundRetryDelayClamp]
  | succ n ih =>
    simp only [outboundRetryDelayClamp]
    split
    · exact le_refl _
    · exact ih _ (by omega)

theorem outboundRetryDelayMs_le (n : Nat) : outboundRetryDelayMs n ≤ 5000 :=
  outboundRetryDelayClamp_le _ _
    (by norm_num [MIMI_OUTBOUND_QUEUE_RETRY_BASE_MS])

/-! ## Claim theorems -/

/-- Claim C7: `push_outbound` classifies a message as status-like iff its
content begins with the status marker "mimi" and contains the ellipsis
token "..."; a status-like message gets exactly one enqueue attempt with
zero wait, while every other message gets up to 3 attempts, each waiting up
to 1200 ms, with inter-attempt backoff delays of 200 ms then 400 ms
(exponential from 200 ms, capped at 5 s), and on exhaustion the
distinguishable queue-full error is returned. -/
theorem claim_c7 (msg : MimiMsg) (accepts : Nat → Bool) :
    (outboundIsStatus msg.content =
      ("mimi".data.isPrefixOf msg.content && containsSub msg.content "...".data)) ∧
    (outboundIsStatus msg.content = true →
      (messageBusPushOutbound accepts msg).2 = [BusEvent.attempt 0] ∧
      ((messageBusPushOutbound accepts msg).1 = PushResult.ok ↔ accepts 1 = true)) ∧
    (outboundIsStatus msg.content = false →
      (accepts 1 = true →
        messageBusPushOutbound accepts msg =
          (PushResult.ok, [BusEvent.attempt 1200])) ∧
      (accepts 1 = false → accepts 2 = true →
        messageBusPushOutbound accepts msg =
          (PushResult.ok,
           [BusEvent.attempt 1200, BusEvent.sleep 200, BusEvent.attempt 1200])) ∧
      (accepts 1 = false → accepts 2 = false → accepts 3 = true →
        messageBusPushOutbound accepts msg =
          (PushResult.ok,
           [BusEvent.attempt 1200, BusEvent.sleep 200, BusEvent.attempt 1200,
            BusEvent.sleep 400, BusEvent.attempt 1200])) ∧
      (accepts 1 = false → accepts 2 = false → accepts 3 = false →
        messageBusPushOutbound accepts msg =
          (PushResult.queueFull,
           [BusEvent.attempt 1200, BusEvent.sleep 200, BusEvent.attempt 1200,
            BusEvent.sleep 400, BusEvent.attempt 1200]))) ∧
    outboundRetryDelayMs 1 = 200 ∧ outboundRetryDelayMs 2 = 400 ∧
    (∀ n, outboundRetryDelayMs n ≤ 5000) := by
  refine ⟨rfl, ?_, ?_, rfl, rfl, outboundRetryDelayMs_le⟩
  · intro hs
    constructor
    · simp [messageBusPushOutbound, pushOutboundGo, hs]
      split <;> simp
    · simp [messageBusPushOutbound, pushOutboundGo, hs]
      constructor
      · intro h
        by_contra hc
        simp [Bool.not_eq_true] at hc
        simp [hc] at h
      · intro h; simp [h]
  · intro hs
    refine ⟨?_, ?_, ?_, ?_⟩
    · intro h1
      simp [messageBusPushOutbound, pushOutboundGo, hs, h1, outboundRetryDelayMs,
        outboundRetryDelayClamp, MIMI_OUTBOUND_QUEUE_RETRY_BASE_MS,
        MIMI_OUTBOUND_QUEUE_RETRY_MAX, MIMI_OUTBOUND_FINAL_WAIT_MS]
    · intro h1 h2
      simp [messageBusPushOutbound, pushOutboundGo, hs, h1, h2, outboundRetryDelayMs,
        outboundRetryDelayClamp, MIMI_OUTBOUND_QUEUE_RETRY_BASE_MS,
        MIMI_OUTBOUND_QUEUE_RETRY_MAX, MIMI_OUTBOUND_FINAL_WAIT_MS]
    · intro h1 h2 h3
      simp [messageBusPushOutbound, pushOutboundGo, hs, h1, h2, h3,
        outboundRetryDelayMs, outboundRetryDelayClamp,
        MIMI_OUTBOUND_QUEUE_RETRY_BASE_MS, MIMI_OUTBOUND_QUEUE_RETRY_MAX,
        MIMI_OUTBOUND_FINAL_WAIT_MS]
    · intro h1 h2 h3
      simp [messageBusPushOutbound, pushOutboundGo, hs, h1, h2, h3,
        outboundRetryDelayMs, outboundRetryDelayClamp,
        MIMI_OUTBOUND_QUEUE_RETRY_BASE_MS, MIMI_OUTBOUND_QUEUE_RETRY_MAX,
        MIMI_OUTBOUND_FINAL_WAIT_MS]

/-- Fixed status message and final message used to exercise `claim_c7`. -/
def statusMsgSample : MimiMsg := { content := "mimi is working...".data }

def finalMsgSample : MimiMsg := { content := "你好！".data }

/-- Witness for C7 at concrete inputs: a status-like message gets a single
zero-wait attempt; a final message with a persistently full queue makes
three 1200 ms attempts with sleeps 200 ms and 400 ms and returns the
queue-full error. -/
theorem claim_c7_witness :
    (messageBusPushOutbound (fun _ => false) statusMsgSample).2 =
      [BusEvent.attempt 0] ∧
    messageBusPushOutbound (fun _ => false) finalMsgSample =
      (PushResult.queueFull,
       [BusEvent.attempt 1200, BusEvent.sleep 200, BusEvent.attempt 1200,
        BusEvent.sleep 400, BusEvent.attempt 1200]) := by
  constructor
  · exact ((claim_c7 statusMsgSample (fun _ => false)).2.1 (by decide)).1
  · exact ((claim_c7 finalMsgSample (fun _ => false)).2.2.1 (by decide)).2.2.2
      rfl rfl rfl

/-- The voice message of scenario 3 ("音量调大20%"). -/
def volUpVoiceMsg : MimiMsg :=
  { channel := "voice".data, chatId := "voice".data,
    mediaType := "voice".data, content := "音量调大20%".data }

/-- Claim C8: with current volume 30, the voice message "音量调大20%" is
handled by the control plane as a relative `set_volume`: the volume becomes
50 and the response text is "已将音量增大百分之20，当前为百分之50。". -/
theorem claim_c8 :
    (tryHandleMessage { volume := 30 } 0 volUpVoiceMsg).1.handled = true ∧
    (tryHandleMessage { volume := 30 } 0 volUpVoiceMsg).1.success = true ∧
    (tryHandleMessage { volume := 30 } 0 volUpVoiceMsg).1.capability =
      "set_volume".data ∧
    (tryHandleMessage { volume := 30 } 0 volUpVoiceMsg).1.responseText =
      "已将音量增大百分之20，当前为百分之50。".data ∧
    (tryHandleMessage { volume := 30 } 0 volUpVoiceMsg).2.volume = 50 := by
  decide

/-- Lemma: the alarm fire callback does nothing on an inactive slot. -/
theorem alarmTimerCb_inactive (st : ControlState) (idx : Nat) (pushOk : Bool)
    (h : (st.alarms.getD idx emptyAlarmSlot).active = false) :
    alarmTimerCb st idx pushOk = (st, none, false) := by
  unfold alarmTimerCb
  simp only [List.getD_eq_getElem?_getD] at h
  split
  · simp [h]
  · rfl

theorem clearAlarmSlots_length (target : Nat) (l : List AlarmSlot) :
    (clearAlarmSlots target l).1.length = l.length := by
  induction l with
  | nil => rfl
  | cons s rest ih =>
    simp only [clearAlarmSlots]
    split
    · split
      · simp
      · simp [ih]
    · simp [ih]

/-- Lemma: with a non-zero target whose first active match is at `idx`, the
clearing loop of `execute_alarm_clear` empties exactly that slot. -/
theorem clearAlarmSlots_first (target : Nat) (l : List AlarmSlot) (idx : Nat)
    (hidx : idx < l.length)
    (hactive : (l.getD idx emptyAlarmSlot).active = true)
    (hid : (l.getD idx emptyAlarmSlot).alarmId = target)
    (hnz : target ≠ 0)
    (hfirst : ∀ j, j < idx → (l.getD j emptyAlarmSlot).active = false ∨
      (l.getD j emptyAlarmSlot).alarmId ≠ target) :
    (clearAlarmSlots target l).1.getD idx emptyAlarmSlot = emptyAlarmSlot ∧
    (clearAlarmSlots target l).2 = 1 := by
  induction l generalizing idx with
  | nil => simp at hidx
  | cons s rest ih =>
    cases idx with
    | zero =>
      simp only [List.getD_cons_zero] at hactive hid
      simp only [clearAlarmSlots, hactive, hid]
      simp [hnz]
    | succ j =>
      simp only [List.getD_cons_succ] at hactive hid
      have hs : ¬(s.active = true ∧ (target = 0 ∨ s.alarmId = target)) := by
        rcases hfirst 0 (Nat.succ_pos j) with h | h
        · simp only [List.getD_cons_zero] at h
          intro hc; rw [hc.1] at h; simp at h
        · simp only [List.getD_cons_zero] at h
          intro hc
          rcases hc.2 with h0 | hm
          · exact hnz h0
          · exact h hm
      have hcond : (s.active && (decide (target = 0) || decide (s.alarmId = target))) = false := by
        by_contra hb
        simp only [Bool.not_eq_false, Bool.and_eq_true, Bool.or_eq_true,
          decide_eq_true_eq] at hb
        exact hs ⟨hb.1, hb.2⟩
      have ih' := ih j (by simpa using Nat.lt_of_succ_lt_succ hidx) hactive hid
        (fun k hk => by
          have := hfirst (k + 1) (Nat.succ_lt_succ hk)
          simpa using this)
      simp only [clearAlarmSlots]
      rw [if_neg (by simp only [Bool.and_eq_true, Bool.or_eq_true,
        decide_eq_true_eq]; exact fun hc => hs ⟨hc.1, hc.2⟩)]
      simpa using ih'

/-- Claim C6: an `alarm_clear(id)` call that clears alarm `id` leaves the
slot inactive, and the fire callback on that slot afterwards finds it
inactive and returns without enqueuing anything — the cleared alarm can
never fire a reminder. -/
theorem claim_c6 (st : ControlState) (now : Int) (cmd : ControlCommand)
    (idx : Nat)
    (hidx : idx < st.alarms.length)
    (hactive : (st.alarms.getD idx emptyAlarmSlot).active = true)
    (hid : (st.alarms.getD idx emptyAlarmSlot).alarmId = cmd.alarmId)
    (hnz : cmd.alarmId ≠ 0)
    (hfirst : ∀ j, j < idx → (st.alarms.getD j emptyAlarmSlot).active = false ∨
      (st.alarms.getD j emptyAlarmSlot).alarmId ≠ cmd.alarmId) :
    ((executeAlarmClear now cmd st).1 =
      .ok { responseText := "已取消闹钟#".data ++ natText cmd.alarmId ++ "。".data }) ∧
    (((executeAlarmClear now cmd st).2.alarms.getD idx emptyAlarmSlot).active
      = false) ∧
    (∀ pushOk, alarmTimerCb (executeAlarmClear now cmd st).2 idx pushOk =
      ((executeAlarmClear now cmd st).2, none, false)) := by
  have hcl := clearAlarmSlots_first cmd.alarmId st.alarms idx hidx hactive hid hnz hfirst
  have hslot : (((executeAlarmClear now cmd st).2).alarms.getD idx emptyAlarmSlot)
      = emptyAlarmSlot := by
    simp only [executeAlarmClear]
    rw [if_neg (by simp [hcl.2, hnz]), if_neg (by simp [hnz]), if_pos (by simp [hnz])]
    exact hcl.1
  refine ⟨?_, ?_, ?_⟩
  · simp only [executeAlarmClear]
    rw [if_neg (by simp [hcl.2, hnz]), if_neg (by simp [hnz]), if_pos (by simp [hnz])]
  · rw [hslot]; rfl
  · intro pushOk
    exact alarmTimerCb_inactive _ _ _ (by rw [hslot]; rfl)

/-- An initial-like state holding one armed alarm, to exercise C6/C10. -/
def oneAlarmState : ControlState :=
  { alarms :=
      [{ active := true, alarmId := 1, dueMs := 5000, hasTimer := true,
         channel := "voice".data, chatId := "voice".data, note := "喝水".data }] ++
      List.replicate 7 ({} : AlarmSlot) }

/-- Witness for C6: clearing alarm #1 in a concrete one-alarm state leaves
the slot unable to fire. -/
theorem claim_c6_witness :
    (((executeAlarmClear 0 { alarmId := 1 } oneAlarmState).2.alarms.getD 0
        emptyAlarmSlot).active = false) ∧
    (alarmTimerCb (executeAlarmClear 0 { alarmId := 1 } oneAlarmState).2 0 true =
      ((executeAlarmClear 0 { alarmId := 1 } oneAlarmState).2, none, false)) := by
  have h := claim_c6 oneAlarmState 0 { alarmId := 1 } 0 (by decide) (by decide)
    (by decide) (by decide)
    (fun j hj => absurd hj (Nat.not_lt_zero j))
  exact ⟨h.2.1, h.2.2 true⟩

/-- Claim C10: when the alarm timer fires, the callback clears the slot
before the enqueue; if the outbound enqueue fails, the reminder is freed
and lost — the slot stays fully cleared, and a later callback run enqueues
nothing (no retry, no re-arm). -/
theorem claim_c10 (st : ControlState) (idx : Nat)
    (hidx : idx < st.alarms.length)
    (hactive : (st.alarms.getD idx emptyAlarmSlot).active = true)
    (hid : (st.alarms.getD idx emptyAlarmSlot).alarmId ≠ 0) :
    ((alarmTimerCb st idx false).2.1 = none) ∧
    ((alarmTimerCb st idx false).2.2 = true) ∧
    ((alarmTimerCb st idx false).1.alarms.getD idx emptyAlarmSlot =
      emptyAlarmSlot) ∧
    (∀ pushOk, alarmTimerCb (alarmTimerCb st idx false).1 idx pushOk =
      ((alarmTimerCb st idx false).1, none, false)) := by
  have hslot : (alarmTimerCb st idx false) =
      ({ st with alarms := st.alarms.set idx emptyAlarmSlot }, none, true) := by
    unfold alarmTimerCb
    rw [if_pos hidx, if_pos hactive, if_neg hid]
    rfl
  have hget : ({ st with alarms := st.alarms.set idx emptyAlarmSlot } :
      ControlState).alarms.getD idx emptyAlarmSlot = emptyAlarmSlot := by
    simp only []
    rw [List.getD_eq_getElem?_getD, List.getElem?_set_self (by simpa using hidx)]
    rfl
  refine ⟨by rw [hslot], by rw [hslot], by rw [hslot]; exact hget, ?_⟩
  intro pushOk
  rw [hslot]
  exact alarmTimerCb_inactive _ _ _ (by rw [hget]; rfl)

/-- Witness for C10: a failed reminder enqueue in the concrete one-alarm
state loses the reminder for good. -/
theorem claim_c10_witness :
    ((alarmTimerCb oneAlarmState 0 false).2.1 = none) ∧
    ((alarmTimerCb oneAlarmState 0 false).2.2 = true) ∧
    (alarmTimerCb (alarmTimerCb oneAlarmState 0 false).1 0 true =
      ((alarmTimerCb oneAlarmState 0 false).1, none, false)) := by
  have h := claim_c10 oneAlarmState 0 (by decide) (by decide) (by decide)
  exact ⟨h.1, h.2.1, h.2.2.2 true⟩

/-- Claim C4: a `set_volume` execution with target `T` (validate admits
exactly `T ∈ [0,100]`) leaves `get_volume() = clamp(T,0,100)`, the result's
`after_value` equals that read-back, and the response text is formatted
(non-empty) only then; the embedded read-back check returns a verification
failure instead of a response on mismatch. -/
theorem claim_c4 (st : ControlState) (now : Int) (cmd : ControlCommand)
    (htype : cmd.type = CmdType.setVolume)
    (hlo : 0 ≤ cmd.targetValue) (hhi : cmd.targetValue ≤ 100) :
    ∃ ex : ExecOk,
      (executeWithCapability now cmd st).1 = .ok ex ∧
      ((executeWithCapability now cmd st).2.volume : Int) =
        clampInt cmd.targetValue 0 100 ∧
      ex.out.afterValue = ((executeWithCapability now cmd st).2.volume : Int) ∧
      ex.capabilityName = "set_volume".data ∧
      ex.out.responseText ≠ [] := by
  have hmod : cmd.targetValue % 256 = cmd.targetValue :=
    Int.emod_eq_of_lt hlo (by omega)
  have htn : ((cmd.targetValue.toNat : Nat) : Int) = cmd.targetValue :=
    Int.toNat_of_nonneg hlo
  have htn100 : ¬(cmd.targetValue.toNat > 100) := by omega
  have hval : validateSetVolume cmd = none := by
    unfold validateSetVolume
    rw [if_neg (by simp; omega)]
  have hexe : executeSetVolume now cmd { st with execCount := st.execCount + 1 } =
      (.ok { beforeValue := (st.volume : Int),
             afterValue := cmd.targetValue,
             responseText :=
               if cmd.relative then
                 "已将音量".data ++
                   (if cmd.deltaValue ≥ 0 then "增大".data else "减小".data) ++
                   "百分之".data ++ natText cmd.deltaValue.natAbs ++
                   "，当前为百分之".data ++ intText cmd.targetValue ++ "。".data
               else
                 "音量已设置为百分之".data ++ intText cmd.targetValue ++ "。".data },
       { st with execCount := st.execCount + 1,
                 volume := cmd.targetValue.toNat }) := by
    unfold executeSetVolume audioSetVolume audioGetVolume
    rw [hmod, if_neg htn100]
    simp only [htn]
    rw [if_neg (by simp)]
    by_cases hrel : cmd.relative = true
    · rw [if_pos hrel, if_pos hrel]
    · rw [if_neg hrel, if_neg hrel]
  have hfind : findCapability CmdType.setVolume = some
      { cmdType := .setVolume, name := "set_volume".data, timeoutMs := 500,
        retryMax := 0, validate := validateSetVolume,
        execute := executeSetVolume } := rfl
  have hE : executeWithCapability now cmd st =
      (.ok { out := { beforeValue := (st.volume : Int),
                      afterValue := cmd.targetValue,
                      responseText :=
                        if cmd.relative then
                          "已将音量".data ++
                            (if cmd.deltaValue ≥ 0 then "增大".data
                             else "减小".data) ++
                            "百分之".data ++ natText cmd.deltaValue.natAbs ++
                            "，当前为百分之".data ++ intText cmd.targetValue ++
                            "。".data
                        else
                          "音量已设置为百分之".data ++ intText cmd.targetValue ++
                            "。".data },
             capabilityName := "set_volume".data },
       { st with execCount := st.execCount + 1,
                 volume := cmd.targetValue.toNat }) := by
    unfold executeWithCapability
    rw [htype, hfind]
    simp only [hval, execRetry, hexe]
  refine ⟨_, ?_, ?_, ?_, (rfl :
    ({ out := { beforeValue := (st.volume : Int),
                afterValue := cmd.targetValue,
                responseText :=
                  if cmd.relative then
                    "已将音量".data ++
                      (if cmd.deltaValue ≥ 0 then "增大".data else "减小".data) ++
                      "百分之".data ++ natText cmd.deltaValue.natAbs ++
                      "，当前为百分之".data ++ intText cmd.targetValue ++
                      "。".data
                  else
                    "音量已设置为百分之".data ++ intText cmd.targetValue ++
                      "。".data },
       capabilityName := "set_volume".data } : ExecOk).capabilityName =
      "set_volume".data), ?_⟩
  · rw [hE]
  · rw [hE, htn]
    unfold clampInt
    rw [if_neg (by omega), if_neg (by omega)]
  · rw [hE]
    exact htn.symm
  · by_cases hrel : cmd.relative = true
    · simp [hrel]
    · simp [hrel]

/-- Witness for C4: setting volume to 70 from a fresh state yields volume 70
with a non-empty response. -/
theorem claim_c4_witness :
    ∃ ex : ExecOk,
      (executeWithCapability 0 { type := CmdType.setVolume, targetValue := 70 }
        ({} : ControlState)).1 = .ok ex ∧
      (((executeWithCapability 0 { type := CmdType.setVolume, targetValue := 70 }
        ({} : ControlState)).2.volume : Int)) = clampInt 70 0 100 ∧
      ex.out.afterValue =
        ((executeWithCapability 0 { type := CmdType.setVolume, targetValue := 70 }
          ({} : ControlState)).2.volume : Int) ∧
      ex.capabilityName = "set_volume".data ∧
      ex.out.responseText ≠ [] := by
  have h := claim_c4 ({} : ControlState) 0
    { type := CmdType.setVolume, targetValue := 70 } rfl (by norm_num) (by norm_num)
  exact h

/-! ### Request-id stability lemmas for C2 -/

theorem toHex8_length (n : Nat) : (toHex8 n).length = 8 := by
  simp [toHex8]

theorem buildRequestId_length_le (msg : MimiMsg) :
    (buildRequestId msg).length ≤ 39 := by
  unfold buildRequestId
  cases hm : msg.metaRequestId with
  | none =>
    by_cases hj : msg.metaJson = [] <;>
      simp [hm, hj, toHex8_length]
  | some rid =>
    by_cases hj : msg.metaJson = []
    · simp [hm, hj, toHex8_length]
    · by_cases hr : rid = []
      · simp [hm, hj, hr, toHex8_length]
      · have h39 : (List.take 39 rid).length ≤ 39 := List.length_take_le 39 rid
        simp only [hm, hj, hr]
        simp [hj, hr, h39]

theorem buildRequestId_take (msg : MimiMsg) :
    (buildRequestId msg).take 39 = buildRequestId msg :=
  List.take_of_length_le (buildRequestId_length_le msg)

theorem parseRebootCommand_rid (msg : MimiMsg) (c : ControlCommand)
    (h : parseRebootCommand msg = some c) : c.requestId = buildRequestId msg := by
  simp only [parseRebootCommand] at h
  split at h
  · simp at h
  · split at h
    · simp at h
    · split at h
      · cases h; rfl
      · split at h
        · cases h; rfl
        · cases h; rfl

theorem parseAlarmCommand_rid (msg : MimiMsg) (c : ControlCommand)
    (h : parseAlarmCommand msg = some c) : c.requestId = buildRequestId msg := by
  simp only [parseAlarmCommand] at h
  split at h
  · simp at h
  · split at h
    · cases h; rfl
    · split at h
      · cases h; rfl
      · split at h
        · simp at h
        · cases h; rfl

theorem parseTempRuleCommand_rid (msg : MimiMsg) (c : ControlCommand) (r : Text)
    (h : parseTempRuleCommand msg = some (c, r)) :
    c.requestId = buildRequestId msg := by
  simp only [parseTempRuleCommand] at h
  split at h
  · simp at h
  · split at h
    · simp at h
    · split at h
      · cases h; rfl
      · split at h
        · cases h; rfl
        · split at h
          · cases h; rfl
          · split at h
            · split at h
              · split at h
                · cases h; rfl
                · cases h; rfl
              · cases h; rfl
            · split at h
              · split at h
                · split at h
                  · cases h; rfl
                  · cases h; rfl
                · cases h; rfl
              · cases h; rfl

theorem parseMusicCommand_rid (msg : MimiMsg) (c : ControlCommand)
    (h : parseMusicCommand msg = some c) : c.requestId = buildRequestId msg := by
  simp only [parseMusicCommand] at h
  split at h
  · simp at h
  · split at h
    · cases h; rfl
    · cases h; rfl

theorem volumeValueCmd_rid (vol : Nat) (msg : MimiMsg) (value : Nat) :
    (volumeValueCmd vol msg value).requestId = buildRequestId msg := by
  unfold volumeValueCmd
  split <;> rfl

theorem parseVolumeCommand_rid (vol : Nat) (msg : MimiMsg) (c : ControlCommand)
    (r : Text) (h : parseVolumeCommand vol msg = some (c, r)) :
    c.requestId = buildRequestId msg := by
  unfold parseVolumeCommand at h
  split at h
  · simp at h
  · split at h
    · simp at h
    · split at h
      · cases h; rfl
      · split at h
        · simp at h
        · split at h
          · cases h; rfl
          · split at h
            · cases h; rfl
            · split at h
              · cases h; exact volumeValueCmd_rid vol msg _
              · split at h
                · cases h; exact volumeValueCmd_rid vol msg 10
                · cases h; rfl

/-- Chain-reduction equations of `parseCommand`. -/
theorem parseCommand_of_reboot (v : Nat) (msg : MimiMsg) (c : ControlCommand)
    (h : parseRebootCommand msg = some c) : parseCommand v msg = some (c, []) := by
  unfold parseCommand
  rw [h]

theorem parseCommand_of_alarm (v : Nat) (msg : MimiMsg) (c : ControlCommand)
    (hR : parseRebootCommand msg = none) (h : parseAlarmCommand msg = some c) :
    parseCommand v msg = some (c, []) := by
  unfold parseCommand
  rw [hR, h]

theorem parseCommand_of_temp (v : Nat) (msg : MimiMsg) (p : ControlCommand × Text)
    (hR : parseRebootCommand msg = none) (hA : parseAlarmCommand msg = none)
    (h : parseTempRuleCommand msg = some p) : parseCommand v msg = some p := by
  unfold parseCommand
  rw [hR, hA, h]

theorem parseCommand_of_music (v : Nat) (msg : MimiMsg) (c : ControlCommand)
    (hR : parseRebootCommand msg = none) (hA : parseAlarmCommand msg = none)
    (hT : parseTempRuleCommand msg = none) (h : parseMusicCommand msg = some c) :
    parseCommand v msg = some (c, []) := by
  unfold parseCommand
  rw [hR, hA, hT, h]

theorem parseCommand_of_volume (v : Nat) (msg : MimiMsg)
    (hR : parseRebootCommand msg = none) (hA : parseAlarmCommand msg = none)
    (hT : parseTempRuleCommand msg = none) (hM : parseMusicCommand msg = none) :
    parseCommand v msg = parseVolumeCommand v msg := by
  unfold parseCommand
  rw [hR, hA, hT, hM]

theorem parseCommand_rid (vol : Nat) (msg : MimiMsg) (c : ControlCommand)
    (r : Text) (h : parseCommand vol msg = some (c, r)) :
    c.requestId = buildRequestId msg := by
  cases hR : parseRebootCommand msg with
  | some c1 =>
    rw [parseCommand_of_reboot vol msg c1 hR] at h
    injection h with h2
    injection h2 with h3 h4
    rw [← h3]
    exact parseRebootCommand_rid msg c1 hR
  | none =>
  cases hA : parseAlarmCommand msg with
  | some c1 =>
    rw [parseCommand_of_alarm vol msg c1 hR hA] at h
    injection h with h2
    injection h2 with h3 h4
    rw [← h3]
    exact parseAlarmCommand_rid msg c1 hA
  | none =>
  cases hT : parseTempRuleCommand msg with
  | some p =>
    rw [parseCommand_of_temp vol msg p hR hA hT] at h
    injection h with h2
    rw [h2] at hT
    exact parseTempRuleCommand_rid msg c r hT
  | none =>
  cases hM : parseMusicCommand msg with
  | some c1 =>
    rw [parseCommand_of_music vol msg c1 hR hA hT hM] at h
    injection h with h2
    injection h2 with h3 h4
    rw [← h3]
    exact parseMusicCommand_rid msg c1 hM
  | none =>
    rw [parseCommand_of_volume vol msg hR hA hT hM] at h
    exact parseVolumeCommand_rid vol msg c r h

/-- Recognition by the volume parser does not depend on the current volume
(the live volume only shapes the numeric fields of the command). -/
theorem parseVolumeCommand_isSome (v v' : Nat) (msg : MimiMsg) :
    (parseVolumeCommand v msg).isSome = (parseVolumeCommand v' msg).isSome := by
  unfold parseVolumeCommand
  split
  · rfl
  · split
    · rfl
    · split
      · rfl
      · split
        · rfl
        · split
          · rfl
          · split
            · rfl
            · split
              · rfl
              · split <;> rfl

/-- Recognition by the full parser chain does not depend on the volume. -/
theorem parseCommand_isSome (v v' : Nat) (msg : MimiMsg) :
    (parseCommand v msg).isSome = (parseCommand v' msg).isSome := by
  cases hR : parseRebootCommand msg with
  | some c1 =>
    rw [parseCommand_of_reboot v msg c1 hR, parseCommand_of_reboot v' msg c1 hR]
  | none =>
  cases hA : parseAlarmCommand msg with
  | some c1 =>
    rw [parseCommand_of_alarm v msg c1 hR hA, parseCommand_of_alarm v' msg c1 hR hA]
  | none =>
  cases hT : parseTempRuleCommand msg with
  | some p =>
    rw [parseCommand_of_temp v msg p hR hA hT, parseCommand_of_temp v' msg p hR hA hT]
  | none =>
  cases hM : parseMusicCommand msg with
  | some c1 =>
    rw [parseCommand_of_music v msg c1 hR hA hT hM,
        parseCommand_of_music v' msg c1 hR hA hT hM]
  | none =>
    rw [parseCommand_of_volume v msg hR hA hT hM,
        parseCommand_of_volume v' msg hR hA hT hM]
    exact parseVolumeCommand_isSome v v' msg

/-! ### Idempotency-cache lemmas for C2 -/

theorem capability_execute_idemp (cap : Capability) (hcap : cap ∈ capabilities)
    (now : Int) (cmd : ControlCommand) (st : ControlState) :
    ((cap.execute now cmd st).2).idemp = st.idemp := by
  fin_cases hcap <;>
    simp only [executeGetVolume, executeSetVolume, executeReboot,
      executeAlarmCreate, executeAlarmList, executeAlarmClear,
      executeTempRuleCreate, executeTempRuleList, executeTempRuleClear,
      executePlayMusic, executeStopMusic, audioSetVolume, audioGetVolume] <;>
    (repeat' split) <;> rfl

theorem execRetry_idemp (cap : Capability) (hcap : cap ∈ capabilities)
    (now : Int) (cmd : ControlCommand) :
    ∀ (n : Nat) (st : ControlState),
      ((execRetry cap now cmd n st).2).idemp = st.idemp := by
  intro n
  induction n with
  | zero =>
    intro st
    have h := capability_execute_idemp cap hcap now cmd
      { st with execCount := st.execCount + 1 }
    simp only [execRetry]
    split <;> exact h
  | succ n ih =>
    intro st
    have h := capability_execute_idemp cap hcap now cmd
      { st with execCount := st.execCount + 1 }
    simp only [execRetry]
    split
    · exact h
    · rw [ih]; exact h

theorem executeWithCapability_idemp (now : Int) (cmd : ControlCommand)
    (st : ControlState) :
    ((executeWithCapability now cmd st).2).idemp = st.idemp := by
  cases hf : findCapability cmd.type with
  | none =>
    have hE : executeWithCapability now cmd st =
        (.error ("未注册能力: ".data ++ natText (cmdTypeInt cmd.type)), st) := by
      unfold executeWithCapability; rw [hf]
    rw [hE]
  | some cap =>
    have hmem : cap ∈ capabilities := List.mem_of_find?_eq_some hf
    have hE1 : executeWithCapability now cmd st =
        (match cap.validate cmd with
         | some e => (.error e, st)
         | none =>
           match execRetry cap now cmd cap.retryMax st with
           | (.ok out, st') => (.ok { out := out, capabilityName := cap.name }, st')
           | (.error e, st') => (.error e, st')) := by
      unfold executeWithCapability; rw [hf]
    cases hv : cap.validate cmd with
    | some e => rw [hE1, hv]
    | none =>
      rcases hR : execRetry cap now cmd cap.retryMax st with ⟨res, stx⟩
      have h := execRetry_idemp cap hmem now cmd cap.retryMax st
      rw [hR] at h
      cases res with
      | ok out => rw [hE1, hv, hR]; exact h
      | error e => rw [hE1, hv, hR]; exact h

theorem idempStoreIndexAux_lt (l : List IdempEntry) (i slot : Nat) (oldest : Int)
    (N : Nat) (hslot : slot < N) (hi : i + l.length ≤ N) :
    idempStoreIndexAux l i slot oldest < N := by
  induction l generalizing i slot oldest with
  | nil => simpa [idempStoreIndexAux] using hslot
  | cons e t ih =>
    simp only [idempStoreIndexAux]
    split
    · simp only [List.length_cons] at hi; omega
    · split
      · exact ih (i + 1) i _ (by simp only [List.length_cons] at hi; omega)
          (by simp only [List.length_cons] at hi; omega)
      · exact ih (i + 1) slot _ hslot
          (by simp only [List.length_cons] at hi; omega)

theorem idempStoreIndex_lt (cache : List IdempEntry) (h : 0 < cache.length) :
    idempStoreIndex cache < cache.length :=
  idempStoreIndexAux_lt cache 0 0 _ cache.length h (by omega)

theorem find?_set_of_none {α : Type} (l : List α) (k : Nat) (e : α) (p : α → Bool)
    (hk : k < l.length) (hpe : p e = true) (hall : ∀ x ∈ l, p x = false) :
    (l.set k e).find? p = some e := by
  induction l generalizing k with
  | nil => simp at hk
  | cons a t ih =>
    cases k with
    | zero =>
      simp only [List.set]
      rw [List.find?_cons_of_pos _ hpe]
    | succ k =>
      have ha := hall a (List.mem_cons_self a t)
      simp only [List.set]
      rw [List.find?_cons_of_neg _ (by simp [ha])]
      exact ih k (by simpa using Nat.lt_of_succ_lt_succ hk)
        (fun x hx => hall x (List.mem_cons_of_mem a hx))

/-- After a store, a lookup with the same id within the TTL returns the
cached result with `dedup_hit = true`, provided no other entry carried the
id. -/
theorem idempLookup_after_store (cache : List IdempEntry) (now1 now2 : Int)
    (rid : Text) (r : ControlResult)
    (hlen : 0 < cache.length)
    (hfresh : ∀ e ∈ cache, e.used = true → e.requestId ≠ rid)
    (hridlen : rid.take 39 = rid)
    (hwin : now2 - now1 ≤ MIMI_CONTROL_IDEMP_WINDOW_MS) :
    idempLookup (idempStore cache now1 rid r) now2 rid =
      some { r with dedupHit := true } := by
  unfold idempLookup idempStore
  rw [find?_set_of_none _ _ _ _ (idempStoreIndex_lt cache hlen)
    (by simp [hridlen, hwin])
    (fun x hx => by
      by_cases hu : x.used = true
      · simp [hu, hfresh x hx hu]
      · simp [Bool.not_eq_true] at hu
        simp [hu])]

theorem idempStore_length (cache : List IdempEntry) (now : Int) (rid : Text)
    (r : ControlResult) : (idempStore cache now rid r).length = cache.length := by
  simp [idempStore]

/-! ### Branch equations of `try_handle_message` -/

theorem tryHandleMessage_not_voice (st : ControlState) (now : Int) (msg : MimiMsg)
    (hm : effectiveMediaType msg ≠ "voice".data) :
    tryHandleMessage st now msg = ({}, st) := by
  unfold tryHandleMessage
  rw [if_pos hm]

theorem tryHandleMessage_no_parse (st : ControlState) (now : Int) (msg : MimiMsg)
    (hm : effectiveMediaType msg = "voice".data)
    (hp : parseCommand st.volume msg = none) :
    tryHandleMessage st now msg = ({}, st) := by
  unfold tryHandleMessage
  rw [if_neg (by simp [hm]), hp]

theorem tryHandleMessage_eq_parsed (st : ControlState) (now : Int) (msg : MimiMsg)
    (cmd : ControlCommand) (reason : Text)
    (hm : effectiveMediaType msg = "voice".data)
    (hp : parseCommand st.volume msg = some (cmd, reason)) :
    tryHandleMessage st now msg = handleParsedCommand st now cmd reason := by
  unfold tryHandleMessage
  rw [if_neg (by simp [hm]), hp]

theorem handleParsedCommand_dedup (st : ControlState) (now : Int)
    (cmd : ControlCommand) (reason : Text) (cached : ControlResult)
    (hl : idempLookup st.idemp now cmd.requestId = some cached) :
    handleParsedCommand st now cmd reason =
      ({ cached with dedupHit := true, handled := true, fromRule := true }, st) := by
  unfold handleParsedCommand
  rw [hl]

/-- The result stored by the clarification (`reason`) path. -/
abbrev reasonResult (cmd : ControlCommand) (reason : Text) : ControlResult :=
  { handled := true, fromRule := true, requestId := cmd.requestId.take 39,
    success := false, responseText := reason.take 191 }

/-- The result stored by the execute-failure path. -/
abbrev execErrorResult (cmd : ControlCommand) (e : Text) : ControlResult :=
  { handled := true, fromRule := true, requestId := cmd.requestId.take 39,
    success := false,
    responseText := ("操作失败：".data ++ e ++ "。".data).take 191 }

/-- The result stored by the execute-success path. -/
abbrev execOkResult (cmd : ControlCommand) (ex : ExecOk) : ControlResult :=
  { handled := true, fromRule := true, requestId := cmd.requestId.take 39,
    success := true, capability := ex.capabilityName.take 23,
    responseText := ex.out.responseText.take 191,
    beforeValue := ex.out.beforeValue, afterValue := ex.out.afterValue,
    pendingAction := ex.out.pendingAction }

theorem handleParsedCommand_reason (st : ControlState) (now : Int)
    (cmd : ControlCommand) (reason : Text)
    (hl : idempLookup st.idemp now cmd.requestId = none)
    (hr : reason ≠ []) :
    handleParsedCommand st now cmd reason =
      (reasonResult cmd reason,
       { st with idemp := idempStore st.idemp now cmd.requestId
                   (reasonResult cmd reason) }) := by
  unfold handleParsedCommand
  simp only [hl]
  rw [if_pos hr]

theorem handleParsedCommand_execError (st : ControlState) (now : Int)
    (cmd : ControlCommand) (reason : Text) (e : Text) (stx : ControlState)
    (hl : idempLookup st.idemp now cmd.requestId = none)
    (hr : ¬(reason ≠ []))
    (hE : executeWithCapability now cmd st = (.error e, stx)) :
    handleParsedCommand st now cmd reason =
      (execErrorResult cmd e,
       { stx with idemp := idempStore stx.idemp now cmd.requestId
                    (execErrorResult cmd e) }) := by
  unfold handleParsedCommand
  simp only [hl]
  rw [if_neg hr, hE]

theorem handleParsedCommand_execOk (st : ControlState) (now : Int)
    (cmd : ControlCommand) (reason : Text) (ex : ExecOk) (stx : ControlState)
    (hl : idempLookup st.idemp now cmd.requestId = none)
    (hr : ¬(reason ≠ []))
    (hE : executeWithCapability now cmd st = (.ok ex, stx)) :
    handleParsedCommand st now cmd reason =
      (execOkResult cmd ex,
       { stx with idemp := idempStore stx.idemp now cmd.requestId
                    (execOkResult cmd ex) }) := by
  unfold handleParsedCommand
  simp only [hl]
  rw [if_neg hr, hE]

/-- The second of two identical calls: with the first call's result stored
under the message's request id and no other entry carrying that id, the
call returns the cached result with `dedup_hit = true` and leaves the state
untouched. -/
theorem tryHandle_second (st stx : ControlState) (now1 now2 : Int) (msg : MimiMsg)
    (cmd : ControlCommand) (r1 : ControlResult)
    (hm : effectiveMediaType msg = "voice".data)
    (hsome : (parseCommand st.volume msg).isSome = true)
    (hrid : cmd.requestId = buildRequestId msg)
    (hridtake : cmd.requestId.take 39 = cmd.requestId)
    (hx : stx.idemp = idempStore st.idemp now1 cmd.requestId r1)
    (hlen : 0 < st.idemp.length)
    (hfresh : ∀ e ∈ st.idemp, e.used = true → e.requestId ≠ buildRequestId msg)
    (hwin : now2 - now1 ≤ MIMI_CONTROL_IDEMP_WINDOW_MS) :
    tryHandleMessage stx now2 msg =
      ({ r1 with dedupHit := true, handled := true, fromRule := true }, stx) := by
  obtain ⟨⟨cmd2, reason2⟩, hp2⟩ : ∃ p, parseCommand stx.volume msg = some p := by
    have hiso := parseCommand_isSome stx.volume st.volume msg
    rw [hsome] at hiso
    exact Option.isSome_iff_exists.mp hiso
  have hrid2 : cmd2.requestId = buildRequestId msg :=
    parseCommand_rid _ _ _ _ hp2
  have hl2 : idempLookup stx.idemp now2 cmd2.requestId =
      some { r1 with dedupHit := true } := by
    rw [hx, hrid2, ← hrid]
    exact idempLookup_after_store st.idemp now1 now2 cmd.requestId r1 hlen
      (fun e he hu => by rw [hrid]; exact hfresh e he hu) hridtake hwin
  rw [tryHandleMessage_eq_parsed stx now2 msg cmd2 reason2 hm hp2,
    handleParsedCommand_dedup stx now2 cmd2 reason2 _ hl2]

/-- Claim C2: a voice message recognized as a control command, handled once
and then again within the idempotency TTL (no other cache entry carrying
its request id), yields the same `response_text` and `success` both times,
with `dedup_hit` false on the first call and true on the second, and the
second call leaves the control state unchanged — in particular no second
`execute` invocation (`execCount` unchanged). -/
theorem claim_c2 (st : ControlState) (now1 now2 : Int) (msg : MimiMsg)
    (hlen : 0 < st.idemp.length)
    (hhandled : (tryHandleMessage st now1 msg).1.handled = true)
    (hfresh : ∀ e ∈ st.idemp, e.used = true → e.requestId ≠ buildRequestId msg)
    (hwin : now2 - now1 ≤ MIMI_CONTROL_IDEMP_WINDOW_MS) :
    (tryHandleMessage st now1 msg).1.dedupHit = false ∧
    (tryHandleMessage (tryHandleMessage st now1 msg).2 now2 msg).1.dedupHit
      = true ∧
    (tryHandleMessage (tryHandleMessage st now1 msg).2 now2 msg).1.responseText
      = (tryHandleMessage st now1 msg).1.responseText ∧
    (tryHandleMessage (tryHandleMessage st now1 msg).2 now2 msg).1.success
      = (tryHandleMessage st now1 msg).1.success ∧
    ((tryHandleMessage (tryHandleMessage st now1 msg).2 now2 msg).2).execCount
      = ((tryHandleMessage st now1 msg).2).execCount ∧
    (tryHandleMessage (tryHandleMessage st now1 msg).2 now2 msg).2
      = (tryHandleMessage st now1 msg).2 := by
  have hm : effectiveMediaType msg = "voice".data := by
    by_contra hm
    rw [tryHandleMessage_not_voice st now1 msg hm] at hhandled
    simp at hhandled
  obtain ⟨⟨cmd, reason⟩, hp⟩ : ∃ p, parseCommand st.volume msg = some p := by
    cases hq : parseCommand st.volume msg with
    | some p => exact ⟨p, rfl⟩
    | none =>
      rw [tryHandleMessage_no_parse st now1 msg hm hq] at hhandled
      simp at hhandled
  have hsome : (parseCommand st.volume msg).isSome = true := by
    rw [hp]; rfl
  have hrid : cmd.requestId = buildRequestId msg :=
    parseCommand_rid _ _ _ _ hp
  have hridtake : cmd.requestId.take 39 = cmd.requestId := by
    rw [hrid]; exact buildRequestId_take msg
  have hl1 : idempLookup st.idemp now1 cmd.requestId = none := by
    unfold idempLookup
    rw [List.find?_eq_none.mpr (fun e he hpe => by
      simp only [Bool.and_eq_true, decide_eq_true_eq] at hpe
      exact hfresh e he hpe.1.1 (hpe.1.2.trans hrid))]
  have hT1 := tryHandleMessage_eq_parsed st now1 msg cmd reason hm hp
  by_cases hr : reason ≠ []
  · have hD := handleParsedCommand_reason st now1 cmd reason hl1 hr
    have h2 := tryHandle_second st
      { st with idemp := idempStore st.idemp now1 cmd.requestId
                  (reasonResult cmd reason) }
      now1 now2 msg cmd (reasonResult cmd reason)
      hm hsome hrid hridtake rfl hlen hfresh hwin
    rw [hT1, hD, h2]
    exact ⟨rfl, rfl, rfl, rfl, rfl, rfl⟩
  · rcases hE : executeWithCapability now1 cmd st with ⟨res, stG⟩
    have hGidemp : stG.idemp = st.idemp := by
      have hpres := executeWithCapability_idemp now1 cmd st
      rw [hE] at hpres
      exact hpres
    cases res with
    | error e =>
      have hD := handleParsedCommand_execError st now1 cmd reason e stG hl1 hr hE
      have h2 := tryHandle_second st
        { stG with idemp := idempStore stG.idemp now1 cmd.requestId
                     (execErrorResult cmd e) }
        now1 now2 msg cmd (execErrorResult cmd e)
        hm hsome hrid hridtake (by rw [show ({ stG with
          idemp := idempStore stG.idemp now1 cmd.requestId
            (execErrorResult cmd e) } : ControlState).idemp =
          idempStore stG.idemp now1 cmd.requestId (execErrorResult cmd e)
          from rfl, hGidemp]) hlen hfresh hwin
      rw [hT1, hD, h2]
      exact ⟨rfl, rfl, rfl, rfl, rfl, rfl⟩
    | ok ex =>
      have hD := handleParsedCommand_execOk st now1 cmd reason ex stG hl1 hr hE
      have h2 := tryHandle_second st
        { stG with idemp := idempStore stG.idemp now1 cmd.requestId
                     (execOkResult cmd ex) }
        now1 now2 msg cmd (execOkResult cmd ex)
        hm hsome hrid hridtake (by rw [show ({ stG with
          idemp := idempStore stG.idemp now1 cmd.requestId
            (execOkResult cmd ex) } : ControlState).idemp =
          idempStore stG.idemp now1 cmd.requestId (execOkResult cmd ex)
          from rfl, hGidemp]) hlen hfresh hwin
      rw [hT1, hD, h2]
      exact ⟨rfl, rfl, rfl, rfl, rfl, rfl⟩

/-- Witness for C2 at a concrete input: "把音量调到70%" handled twice from a
fresh state within the TTL. -/
theorem claim_c2_witness :
    (tryHandleMessage { volume := 30 } 1000
      { channel := "voice".data, chatId := "voice".data,
        mediaType := "voice".data, content := "把音量调到70%".data }).1.dedupHit
      = false ∧
    (tryHandleMessage
      (tryHandleMessage { volume := 30 } 1000
        { channel := "voice".data, chatId := "voice".data,
          mediaType := "voice".data, content := "把音量调到70%".data }).2 2000
      { channel := "voice".data, chatId := "voice".data,
        mediaType := "voice".data, content := "把音量调到70%".data }).1.dedupHit
      = true := by
  have h := claim_c2 { volume := 30 } 1000 2000
    { channel := "voice".data, chatId := "voice".data,
      mediaType := "voice".data, content := "把音量调到70%".data }
    (by decide) (by decide) (by decide) (by decide)
  exact ⟨h.1, h.2.1⟩

/-! ### Turn-level claims -/

/-- Claim C1: with the outbound queue accepting, every turn pushes exactly
one final outbound message (the optional working status is counted apart),
except when the control plane handled the message with an empty
`response_text` (in particular a silent successful `play_music`), in which
case no final message is produced. -/
theorem finalizeLlmTurn_outboundFinal (cres : ControlResult)
    (cst' : ControlState) (env : AgentEnv) (msg : MimiMsg) (s1 : LoopState)
    (hacc : env.outboundAccepts = true) :
    (finalizeLlmTurn cres cst' env msg s1).outboundFinal.length = 1 := by
  unfold finalizeLlmTurn
  simp only [hacc, if_true]
  split <;> split <;> simp

theorem runLlmPipeline_outboundFinal (cres : ControlResult)
    (cst' : ControlState) (env : AgentEnv) (msg : MimiMsg)
    (hacc : env.outboundAccepts = true) :
    (runLlmPipeline cres cst' env msg).outboundFinal.length = 1 := by
  unfold runLlmPipeline
  exact finalizeLlmTurn_outboundFinal cres cst' env msg _ hacc

theorem claim_c1 (cst : ControlState) (now : Int) (env : AgentEnv) (msg : MimiMsg)
    (hacc : env.outboundAccepts = true) :
    (runTurn cst now env msg).outboundFinal.length =
      (if (tryHandleMessage cst now msg).1.handled = true ∧
          (tryHandleMessage cst now msg).1.responseText = [] then 0 else 1) := by
  rcases hT : tryHandleMessage cst now msg with ⟨cres, cst'⟩
  unfold runTurn
  simp only [hT]
  by_cases hh : cres.handled = true
  · by_cases hresp : cres.responseText = []
    · by_cases hs : cres.success = true <;>
        simp [hh, hresp, hs, hacc]
    · simp [hh, hresp, hacc]
  · rw [if_neg hh, if_neg (fun hc => hh hc.1)]
    exact runLlmPipeline_outboundFinal cres cst' env msg hacc

/-- Witness for C1: an unhandled text message with an immediate LLM text
answer produces exactly one outbound final message. -/
def plainEchoEnv : AgentEnv :=
  { llm := fun _ => .response "hi".data false [],
    toolExec := fun _ => [],
    serializedSize := fun _ => 0,
    systemPrompt := [],
    history := [],
    userContent := none,
    timedOut := fun _ => false,
    outboundAccepts := true,
    phraseIdx := 0 }

def plainTextMsg : MimiMsg :=
  { channel := "telegram".data, chatId := "C".data,
    mediaType := "text".data, content := "hello".data }

theorem claim_c1_witness :
    (runTurn {} 0 plainEchoEnv plainTextMsg).outboundFinal.length = 1 := by
  have h := claim_c1 {} 0 plainEchoEnv plainTextMsg rfl
  rw [h]
  decide

/-- Claim C5: when the initial context (system prompt plus serialized
history plus the current user content) exceeds `MAX_CONTEXT_BYTES`, the
turn terminates before any LLM call, no tool is invoked, the user-visible
message is the context-budget text, and the context-budget counter is
incremented. -/
theorem claim_c5 (cst : ControlState) (now : Int) (env : AgentEnv) (msg : MimiMsg)
    (hctrl : (tryHandleMessage cst now msg).1.handled = false)
    (ht0 : env.timedOut 0 = false)
    (hacc : env.outboundAccepts = true)
    (hctx : env.systemPrompt.length +
        env.serializedSize (env.history ++ [ChatMsg.user (userTextFor env msg)]) >
        MIMI_AGENT_MAX_CONTEXT_BYTES) :
    (runTurn cst now env msg).llmCalls = 0 ∧
    (runTurn cst now env msg).toolExecs = 0 ∧
    (runTurn cst now env msg).hitContextBudget = true ∧
    (runTurn cst now env msg).finalText = some ctxBudgetFinalText ∧
    (runTurn cst now env msg).outboundFinal = [ctxBudgetFinalText] ∧
    ∀ stats : AgentStats,
      (recordTurnStats stats (runTurn cst now env msg)).contextBudgetHits =
        stats.contextBudgetHits + 1 := by
  rcases hT : tryHandleMessage cst now msg with ⟨cres, cst'⟩
  rw [hT] at hctrl
  unfold runTurn
  simp only [hT]
  rw [if_neg (by rw [hctrl]; simp)]
  unfold runLlmPipeline
  have hiter0 : (initialLoopState env msg).iteration = 0 := rfl
  have hcond1 : ¬(env.timedOut (initialLoopState env msg).iteration = true) := by
    rw [hiter0, ht0]
    simp
  have hcond2 : env.systemPrompt.length +
      env.serializedSize (initialLoopState env msg).msgs >
      MIMI_AGENT_MAX_CONTEXT_BYTES := hctx
  have hL : reactLoop env msg MIMI_AGENT_MAX_TOOL_ITER (initialLoopState env msg) =
      { initialLoopState env msg with
        hitContextBudget := true, finalText := some ctxBudgetFinalText } := by
    have h10 : MIMI_AGENT_MAX_TOOL_ITER = 9 + 1 := rfl
    rw [h10]
    unfold reactLoop
    rw [if_neg hcond1, if_pos hcond2]
  rw [hL]
  unfold finalizeLlmTurn
  simp [hacc, recordTurnStats, initialLoopState, ctxBudgetFinalText]

/-- Oversized-context environment for the C5 witness: the serializer
reports 25000 bytes for any message array. -/
def bigCtxEnv : AgentEnv :=
  { plainEchoEnv with serializedSize := fun _ => 25000 }

theorem claim_c5_witness :
    (runTurn {} 0 bigCtxEnv plainTextMsg).llmCalls = 0 ∧
    (runTurn {} 0 bigCtxEnv plainTextMsg).toolExecs = 0 ∧
    (runTurn {} 0 bigCtxEnv plainTextMsg).hitContextBudget = true ∧
    (runTurn {} 0 bigCtxEnv plainTextMsg).outboundFinal = [ctxBudgetFinalText] := by
  obtain ⟨hA, hB, hC, _, hE, _⟩ :=
    claim_c5 {} 0 bigCtxEnv plainTextMsg (by decide) rfl rfl (by decide)
  exact ⟨hA, hB, hC, hE⟩

theorem sendWorkingStatus_preserve (env : AgentEnv) (msg : MimiMsg)
    (s : LoopState) :
    (sendWorkingStatus env msg s).hitTimeout = s.hitTimeout ∧
    (sendWorkingStatus env msg s).hitContextBudget = s.hitContextBudget ∧
    (sendWorkingStatus env msg s).hitToolBudget = s.hitToolBudget ∧
    (sendWorkingStatus env msg s).hitLlmError = s.hitLlmError ∧
    (sendWorkingStatus env msg s).finalText = s.finalText := by
  unfold sendWorkingStatus
  repeat' split
  all_goals simp

/-- Every loop exit that sets a timeout / context-budget / tool-budget /
LLM-error flag also sets a non-empty user-facing final text. -/
theorem reactLoop_flags_final (env : AgentEnv) (msg : MimiMsg) :
    ∀ (fuel : Nat) (s : LoopState),
      s.hitTimeout = false → s.hitContextBudget = false →
      s.hitToolBudget = false → s.hitLlmError = false → s.finalText = none →
      (((reactLoop env msg fuel s).hitTimeout = true ∨
        (reactLoop env msg fuel s).hitContextBudget = true ∨
        (reactLoop env msg fuel s).hitToolBudget = true ∨
        (reactLoop env msg fuel s).hitLlmError = true) →
       ∃ t, (reactLoop env msg fuel s).finalText = some t ∧ t ≠ []) := by
  intro fuel
  induction fuel with
  | zero =>
    intro s h1 h2 h3 h4 h5 hdisj
    unfold reactLoop at hdisj
    rcases hdisj with h | h | h | h <;> simp_all
  | succ fuel ih =>
    intro s h1 h2 h3 h4 h5
    rw [reactLoop]
    split
    · exact fun _ => ⟨timeoutFinalText, rfl, by decide⟩
    · split
      · exact fun _ => ⟨ctxBudgetFinalText, rfl, by decide⟩
      · obtain ⟨hw1, hw2, hw3, hw4, hw5⟩ := sendWorkingStatus_preserve env msg s
        dsimp only
        split
        · intro _
          refine ⟨_, rfl, ?_⟩
          split <;> decide
        · split
          · split
            · intro hdisj
              rcases hdisj with h | h | h | h <;> simp_all
            · intro hdisj
              rcases hdisj with h | h | h | h <;> simp_all
          · split
            · exact fun _ => ⟨toolBudgetFinalText, rfl, by decide⟩
            · exact ih _ (by simp_all) (by simp_all) (by simp_all) (by simp_all)
                (by simp_all)

/-- Claim C9: on every LLM-pipeline turn that fails with a timeout,
context-budget, tool-budget, iteration-limit or LLM error, the non-empty
error text is appended to the session as the assistant entry together with
the user text (exactly as on a successful turn) and pushed outbound; only
when no final text was produced at all is the fallback error pushed with no
session append. -/
theorem claim_c9 (cres : ControlResult) (cst' : ControlState) (env : AgentEnv)
    (msg : MimiMsg) (hacc : env.outboundAccepts = true) :
    (((runLlmPipeline cres cst' env msg).hitTimeout = true ∨
      (runLlmPipeline cres cst' env msg).hitContextBudget = true ∨
      (runLlmPipeline cres cst' env msg).hitToolBudget = true ∨
      (runLlmPipeline cres cst' env msg).hitIterLimit = true ∨
      (runLlmPipeline cres cst' env msg).hitLlmError = true) →
      ∃ t, (runLlmPipeline cres cst' env msg).finalText = some t ∧ t ≠ [] ∧
        (runLlmPipeline cres cst' env msg).sessionAppends =
          [("user".data, userTextFor env msg), ("assistant".data, t)] ∧
        (runLlmPipeline cres cst' env msg).outboundFinal = [t]) ∧
    ((runLlmPipeline cres cst' env msg).finalText = none →
      (runLlmPipeline cres cst' env msg).sessionAppends = [] ∧
      (runLlmPipeline cres cst' env msg).outboundFinal = [fallbackFinalText]) := by
  have hflag := reactLoop_flags_final env msg MIMI_AGENT_MAX_TOOL_ITER
    (initialLoopState env msg) rfl rfl rfl rfl rfl
  unfold runLlmPipeline
  generalize hg : reactLoop env msg MIMI_AGENT_MAX_TOOL_ITER
    (initialLoopState env msg) = s1 at hflag ⊢
  unfold finalizeLlmTurn
  dsimp only
  by_cases hIt :
      (s1.finalText.isNone && decide (s1.iteration ≥ MIMI_AGENT_MAX_TOOL_ITER)) = true
  · rw [if_pos hIt]
    have hne : iterLimitFinalText.isEmpty = false := by decide
    refine ⟨fun _ => ⟨iterLimitFinalText, ?_, by decide, ?_, ?_⟩, fun hnone => ?_⟩
    · simp [hacc, hne]
    · simp [hacc, hne]
    · simp [hacc, hne]
    · simp [hacc, hne] at hnone
  · rw [if_neg hIt]
    have hItf : (s1.finalText.isNone &&
        decide (s1.iteration ≥ MIMI_AGENT_MAX_TOOL_ITER)) = false := by
      simpa using hIt
    cases hf : s1.finalText with
    | none =>
      simp only [hf, Option.isNone_none, Bool.true_and] at hItf
      refine ⟨fun hdisj => ?_, fun _ => ?_⟩
      · obtain ⟨t', ht', _⟩ := hflag (by
          rcases hdisj with h | h | h | h | h
          · exact Or.inl (by simpa [hacc, hf] using h)
          · exact Or.inr (Or.inl (by simpa [hacc, hf] using h))
          · exact Or.inr (Or.inr (Or.inl (by simpa [hacc, hf] using h)))
          · simp [hacc, hf, hItf] at h
          · exact Or.inr (Or.inr (Or.inr (by simpa [hacc, hf] using h))))
        rw [hf] at ht'
        cases ht'
      · constructor <;> simp [hacc, hf, hItf]
    | some t =>
      by_cases ht : t = []
      · refine ⟨fun hdisj => ?_, fun hnone => ?_⟩
        · simp only [hacc, hf, ht] at hdisj
          obtain ⟨t', ht', hne⟩ := hflag (by
            rcases hdisj with h | h | h | h | h
            · exact Or.inl (by simpa using h)
            · exact Or.inr (Or.inl (by simpa using h))
            · exact Or.inr (Or.inr (Or.inl (by simpa using h)))
            · simp at h
            · exact Or.inr (Or.inr (Or.inr (by simpa using h))))
          rw [hf] at ht'
          have heq : t = t' := by injection ht'
          rw [← heq] at hne
          exact absurd ht hne
        · simp [hacc, hf, ht] at hnone
      · refine ⟨fun hdisj => ⟨t, ?_, ht, ?_, ?_⟩, fun hnone => ?_⟩
        · simp [hacc, hf, ht]
        · simp [hacc, hf, ht]
        · simp [hacc, hf, ht]
        · simp [hacc, hf, ht] at hnone

/-- Witness environment for C9: the wall clock reports timeout at once. -/
def timeoutEnv : AgentEnv :=
  { plainEchoEnv with timedOut := fun _ => true }

theorem claim_c9_witness :
    ∃ t, (runLlmPipeline {} {} timeoutEnv plainTextMsg).finalText = some t ∧
      t ≠ [] ∧
      (runLlmPipeline {} {} timeoutEnv plainTextMsg).sessionAppends =
        [("user".data, userTextFor timeoutEnv plainTextMsg),
         ("assistant".data, t)] ∧
      (runLlmPipeline {} {} timeoutEnv plainTextMsg).outboundFinal = [t] :=
  (claim_c9 {} {} timeoutEnv plainTextMsg rfl).1 (Or.inl (by decide))

/-- The C3 probe: one iteration whose LLM turn requests two tool calls,
each tool returning 3 KiB of output, then a plain final answer. -/
def budgetProbeCalls : List ToolCall :=
  [{ id := "call_1".data }, { id := "call_2".data }]

def budgetProbeEnv : AgentEnv :=
  { llm := fun n => if n = 0 then .response [] true budgetProbeCalls
      else .response "done".data false [],
    toolExec := fun _ => List.replicate 3072 'a',
    serializedSize := fun _ => 0,
    systemPrompt := [],
    history := [],
    userContent := none,
    timedOut := fun _ => false,
    outboundAccepts := true,
    phraseIdx := 0 }

/-- The 2048-byte truncated form of a 3 KiB tool output: 2011 payload
bytes plus the 37-byte suffix. -/
def budgetProbeResult : Text := List.replicate 2011 'a' ++ toolTruncSuffix

theorem toolTruncSuffix_len : toolTruncSuffix.length = 37 := rfl

theorem budgetProbeResult_len :
    budgetProbeResult.length = MIMI_AGENT_TOOL_RESULT_MAX_BYTES := by
  unfold budgetProbeResult
  rw [List.length_append, List.length_replicate, toolTruncSuffix_len]
  decide

theorem budgetProbe_trunc (c : ToolCall) :
    truncateToolOutputIfNeeded TOOL_OUTPUT_SIZE
      ((budgetProbeEnv.toolExec c).take (TOOL_OUTPUT_SIZE - 1)) =
    budgetProbeResult := by
  have h1 : budgetProbeEnv.toolExec c = List.replicate 3072 'a' := rfl
  rw [h1, List.take_replicate]
  have hmin : min (TOOL_OUTPUT_SIZE - 1) 3072 = 3072 := by decide
  rw [hmin]
  unfold truncateToolOutputIfNeeded
  rw [if_neg (show ¬((List.replicate 3072 'a').length ≤
    MIMI_AGENT_TOOL_RESULT_MAX_BYTES) by rw [List.length_replicate]; decide)]
  dsimp only
  rw [if_neg (show ¬(MIMI_AGENT_TOOL_RESULT_MAX_BYTES ≥ TOOL_OUTPUT_SIZE)
    by decide)]
  rw [if_neg (show ¬(MIMI_AGENT_TOOL_RESULT_MAX_BYTES ≤
    toolTruncSuffix.length + 1) by rw [toolTruncSuffix_len]; decide)]
  rw [List.take_replicate]
  have hmin2 : min (MIMI_AGENT_TOOL_RESULT_MAX_BYTES - toolTruncSuffix.length)
      3072 = 2011 := by
    rw [toolTruncSuffix_len]
    decide
  rw [hmin2]
  rfl

theorem budgetProbe_build :
    buildToolResults budgetProbeEnv.toolExec budgetProbeCalls =
      { results := [("call_1".data, budgetProbeResult),
                    ("call_2".data, budgetProbeResult)],
        exceeded := false, execCount := 2 } := by
  unfold buildToolResults budgetProbeCalls
  rw [buildToolResultsGo]
  rw [if_neg (show ¬((false : Bool) = true) by decide)]
  dsimp only
  rw [budgetProbe_trunc]
  rw [if_neg (show ¬(0 + budgetProbeResult.length >
    MIMI_AGENT_TOOL_RESULTS_TOTAL_MAX) by rw [budgetProbeResult_len]; decide)]
  rw [buildToolResultsGo]
  rw [if_neg (show ¬((false : Bool) = true) by decide)]
  dsimp only
  rw [budgetProbe_trunc]
  rw [if_neg (show ¬(0 + budgetProbeResult.length + budgetProbeResult.length >
    MIMI_AGENT_TOOL_RESULTS_TOTAL_MAX) by rw [budgetProbeResult_len]; decide)]
  rw [buildToolResultsGo]

/-- One loop step whose LLM outcome is a tool-use turn that stays within
the cumulative tool-result budget: the loop records the exchange and
continues. -/
theorem reactLoop_step_tool (env : AgentEnv) (msg : MimiMsg) (fuel : Nat)
    (s : LoopState) (h1 : env.timedOut s.iteration = false)
    (h2 : ¬ env.systemPrompt.length + env.serializedSize s.msgs >
      MIMI_AGENT_MAX_CONTEXT_BYTES)
    (text : Text) (calls : List ToolCall)
    (hllm : env.llm (sendWorkingStatus env msg s).llmCalls =
      .response text true calls)
    (hex : (buildToolResults env.toolExec calls).exceeded = false) :
    reactLoop env msg (fuel + 1) s =
      reactLoop env msg fuel
        { sendWorkingStatus env msg s with
          msgs := ((sendWorkingStatus env msg s).msgs ++
              [ChatMsg.assistantContent text calls]) ++
            [ChatMsg.toolResults (buildToolResults env.toolExec calls).results],
          llmCalls := (sendWorkingStatus env msg s).llmCalls + 1,
          toolExecs := (sendWorkingStatus env msg s).toolExecs +
            (buildToolResults env.toolExec calls).execCount,
          iteration := (sendWorkingStatus env msg s).iteration + 1 } := by
  rw [reactLoop]
  rw [if_neg (by simp [h1]), if_neg h2]
  dsimp only
  rw [hllm]
  dsimp only
  rw [if_neg (show ¬((!true) = true) by decide)]
  rw [hex]
  rw [if_neg (show ¬((false : Bool) = true) by decide)]

/-- One loop step whose LLM outcome is a plain non-empty text answer: the
loop stores it as the final text and stops. -/
theorem reactLoop_step_final (env : AgentEnv) (msg : MimiMsg) (fuel : Nat)
    (s : LoopState) (h1 : env.timedOut s.iteration = false)
    (h2 : ¬ env.systemPrompt.length + env.serializedSize s.msgs >
      MIMI_AGENT_MAX_CONTEXT_BYTES)
    (text : Text) (hllm : env.llm (sendWorkingStatus env msg s).llmCalls =
      .response text false [])
    (hne : text ≠ []) :
    reactLoop env msg (fuel + 1) s =
      { sendWorkingStatus env msg s with
        llmCalls := (sendWorkingStatus env msg s).llmCalls + 1,
        finalText := some text, producedFinalResponse := true } := by
  rw [reactLoop]
  rw [if_neg (by simp [h1]), if_neg h2]
  dsimp only
  rw [hllm]
  dsimp only
  rw [if_pos (show (!false) = true from rfl), if_pos hne]

/-- The loop state after the first iteration of the C3 probe. -/
def budgetProbeS1 : LoopState :=
  { msgs := [ChatMsg.user "hello".data,
             ChatMsg.assistantContent [] budgetProbeCalls,
             ChatMsg.toolResults [("call_1".data, budgetProbeResult),
                                  ("call_2".data, budgetProbeResult)]],
    iteration := 1, llmCalls := 1, toolExecs := 2, statusPushes := 1,
    sentWorkingStatus := true }

theorem budgetProbe_loop :
    reactLoop budgetProbeEnv plainTextMsg MIMI_AGENT_MAX_TOOL_ITER
      (initialLoopState budgetProbeEnv plainTextMsg) =
    { budgetProbeS1 with
        llmCalls := 2, finalText := some "done".data,
        producedFinalResponse := true } := by
  have hstep1 := reactLoop_step_tool budgetProbeEnv plainTextMsg 9
    (initialLoopState budgetProbeEnv plainTextMsg) rfl (by decide)
    [] budgetProbeCalls rfl (by rw [budgetProbe_build])
  have hstep2 := reactLoop_step_final budgetProbeEnv plainTextMsg 8
    budgetProbeS1 rfl (by decide) "done".data rfl (by decide)
  have h10 : MIMI_AGENT_MAX_TOOL_ITER = 9 + 1 := rfl
  rw [h10, hstep1]
  have hs1 : { sendWorkingStatus budgetProbeEnv plainTextMsg
        (initialLoopState budgetProbeEnv plainTextMsg) with
      msgs := ((sendWorkingStatus budgetProbeEnv plainTextMsg
          (initialLoopState budgetProbeEnv plainTextMsg)).msgs ++
          [ChatMsg.assistantContent [] budgetProbeCalls]) ++
        [ChatMsg.toolResults
          (buildToolResults budgetProbeEnv.toolExec budgetProbeCalls).results],
      llmCalls := (sendWorkingStatus budgetProbeEnv plainTextMsg
        (initialLoopState budgetProbeEnv plainTextMsg)).llmCalls + 1,
      toolExecs := (sendWorkingStatus budgetProbeEnv plainTextMsg
          (initialLoopState budgetProbeEnv plainTextMsg)).toolExecs +
        (buildToolResults budgetProbeEnv.toolExec budgetProbeCalls).execCount,
      iteration := (sendWorkingStatus budgetProbeEnv plainTextMsg
        (initialLoopState budgetProbeEnv plainTextMsg)).iteration + 1 } =
      budgetProbeS1 := by
    rw [budgetProbe_build]
    rfl
  rw [hs1]
  exact hstep2

theorem budgetProbe_turn_facts :
    (runTurn {} 0 budgetProbeEnv plainTextMsg).hitToolBudget = false ∧
    (runTurn {} 0 budgetProbeEnv plainTextMsg).toolExecs = 2 ∧
    (runTurn {} 0 budgetProbeEnv plainTextMsg).llmCalls = 2 ∧
    (runTurn {} 0 budgetProbeEnv plainTextMsg).finalText = some "done".data ∧
    (runTurn {} 0 budgetProbeEnv plainTextMsg).outboundFinal = ["done".data] := by
  rcases hT : tryHandleMessage {} 0 plainTextMsg with ⟨cres, cst'⟩
  have hh : cres.handled = false := by
    have h : (tryHandleMessage {} 0 plainTextMsg).1.handled = false := by decide
    rw [hT] at h
    exact h
  unfold runTurn
  simp only [hT]
  rw [if_neg (by rw [hh]; simp)]
  unfold runLlmPipeline
  rw [budgetProbe_loop]
  unfold finalizeLlmTurn
  simp [budgetProbeS1, show budgetProbeEnv.outboundAccepts = true from rfl]

theorem TOOL_BUDGET_EXCEEDED_MSG_len : TOOL_BUDGET_EXCEEDED_MSG.length = 44 := rfl

/-- Claim C3 counterexample: with two 3 KiB tool outputs in one iteration,
each tool_result is truncated to exactly 2048 bytes, their total equals the
4096-byte cap without strictly exceeding it, so the second result is NOT
replaced by the budget-exceeded marker, `hit_tool_budget` stays false, and
the turn ends with the LLM's normal final answer rather than the
tool-budget error message. -/
theorem claim_c3_counterexample :
    (runTurn {} 0 budgetProbeEnv plainTextMsg).hitToolBudget = false ∧
    (runTurn {} 0 budgetProbeEnv plainTextMsg).finalText = some "done".data ∧
    (buildToolResults budgetProbeEnv.toolExec budgetProbeCalls).exceeded = false ∧
    (buildToolResults budgetProbeEnv.toolExec budgetProbeCalls).results.map
        Prod.snd ≠
      [budgetProbeResult, TOOL_BUDGET_EXCEEDED_MSG] := by
  obtain ⟨hA, _, _, hD, hE⟩ := budgetProbe_turn_facts
  refine ⟨hA, hD, ?_, ?_⟩
  · rw [budgetProbe_build]
  · rw [budgetProbe_build]
    dsimp only
    simp only [List.map_cons, List.map_nil, ne_eq, List.cons.injEq, and_true,
      not_and]
    intro _ h
    have hlen := congrArg List.length h
    rw [budgetProbeResult_len, TOOL_BUDGET_EXCEEDED_MSG_len] at hlen
    exact absurd hlen (by decide)

/-- Claim C3 (amended): in one ReAct iteration with two tool calls each
returning 3 KiB of output, both tool_results are truncated to exactly
2048 bytes ending in the fixed suffix, the running total reaches exactly
`TOOL_RESULTS_TOTAL_MAX` = 4096 without exceeding it (the check is a strict
inequality), both tools are executed, no budget flag is set, and the turn
proceeds to a normal final answer. -/
theorem claim_c3 :
    (buildToolResults budgetProbeEnv.toolExec budgetProbeCalls).results.map
        Prod.snd = [budgetProbeResult, budgetProbeResult] ∧
    budgetProbeResult = List.replicate 2011 'a' ++ toolTruncSuffix ∧
    budgetProbeResult.length = MIMI_AGENT_TOOL_RESULT_MAX_BYTES ∧
    2 * MIMI_AGENT_TOOL_RESULT_MAX_BYTES = MIMI_AGENT_TOOL_RESULTS_TOTAL_MAX ∧
    (buildToolResults budgetProbeEnv.toolExec budgetProbeCalls).exceeded = false ∧
    (buildToolResults budgetProbeEnv.toolExec budgetProbeCalls).execCount = 2 ∧
    (runTurn {} 0 budgetProbeEnv plainTextMsg).hitToolBudget = false ∧
    (runTurn {} 0 budgetProbeEnv plainTextMsg).toolExecs = 2 ∧
    (runTurn {} 0 budgetProbeEnv plainTextMsg).llmCalls = 2 ∧
    (runTurn {} 0 budgetProbeEnv plainTextMsg).outboundFinal = ["done".data] := by
  obtain ⟨hA, hB, hC, _, hE⟩ := budgetProbe_turn_facts
  refine ⟨?_, rfl, budgetProbeResult_len, by decide, ?_, ?_, hA, hB, hC, hE⟩
  · rw [budgetProbe_build]
    rfl
  · rw [budgetProbe_build]
  · rw [budgetProbe_build]

end Mimiclaw
